import Mathlib

/-!
Shallow embedding of the binary instrument-frame decoders of the
cgsn-parsers repository (Python 2 sources under cgsn_parsers/parsers/),
together with theorems settling the frozen claims about them.

Conventions used throughout:
* a Python 2 byte string is a `List Nat` (each entry the `ord` of one byte);
* Python floats are modelled as exact rationals (`ℚ`); the four-byte IEEE
  fields unpacked with struct code `f` are carried as their raw 32-bit
  big-endian bit patterns, since no decoder ever does arithmetic on them;
* a Python exception escaping a function is modelled with `Except String`;
* Python 2 `/` on ints is floor division (`Nat.div` / `Int.fdiv`).
-/

namespace Cgsn

/-- Decidable equality of decoder results (needed to evaluate concrete
runs inside proofs). -/
instance {ε α : Type} [DecidableEq ε] [DecidableEq α] : DecidableEq (Except ε α) := fun x y =>
  match x, y with
  | .error a, .error b =>
    if h : a = b then isTrue (by rw [h])
    else isFalse (by intro hh; injection hh; contradiction)
  | .ok a, .ok b =>
    if h : a = b then isTrue (by rw [h])
    else isFalse (by intro hh; injection hh; contradiction)
  | .error _, .ok _ => isFalse (by intro hh; cases hh)
  | .ok _, .error _ => isFalse (by intro hh; cases hh)

/-! ### Byte-level primitives (struct.unpack helpers) -/

/-- Read one byte (the `ord` of one character of a Python 2 str). -/
def u8 (bs : List Nat) (i : Nat) : Nat := bs.getD i 0

/-- `struct.unpack('<H', ...)`: 16-bit little-endian word at offset `i`. -/
def readLE16 (bs : List Nat) (i : Nat) : Nat := u8 bs i + 256 * u8 bs (i + 1)

/-- `struct.unpack('>H', ...)`: 16-bit big-endian word at offset `i`. -/
def readBE16 (bs : List Nat) (i : Nat) : Nat := 256 * u8 bs i + u8 bs (i + 1)

/-- `struct.unpack('<I', ...)`: 32-bit little-endian word at offset `i`. -/
def readLE32 (bs : List Nat) (i : Nat) : Nat :=
  u8 bs i + 256 * u8 bs (i + 1) + 65536 * u8 bs (i + 2) + 16777216 * u8 bs (i + 3)

/-- `struct.unpack('>I', ...)`: 32-bit big-endian word at offset `i`. -/
def readBE32 (bs : List Nat) (i : Nat) : Nat :=
  16777216 * u8 bs i + 65536 * u8 bs (i + 1) + 256 * u8 bs (i + 2) + u8 bs (i + 3)

/-- Interpretation of a 16-bit word as struct code `h` (signed short). -/
def asI16 (v : Nat) : Int := if v < 32768 then (v : Int) else (v : Int) - 65536

/-- Interpretation of a byte as struct code `b` (signed char). -/
def asI8 (v : Nat) : Int := if v < 128 then (v : Int) else (v : Int) - 256

/-- `struct.unpack('<h', ...)`: signed 16-bit little-endian at offset `i`. -/
def readLE16s (bs : List Nat) (i : Nat) : Int := asI16 (readLE16 bs i)

/-- Python slice `bs[a:b]` (clamped, never failing). -/
def pySlice (bs : List Nat) (a b : Nat) : List Nat := (bs.take b).drop a

/-- Sum of the byte values of a string, as in the byte-sum checksums. -/
def byteSum (bs : List Nat) : Nat := bs.foldl (· + ·) 0

/-! ### Calendar arithmetic (`calendar.timegm` over a UTC time tuple)

`timegm` converts a proleptic-Gregorian civil date/time (UTC) to seconds
since 1970-01-01, exactly as Python's `calendar.timegm` does on the
`timetuple()` of a `datetime`. -/

/-- Gregorian leap-year test. -/
def isLeap (y : Nat) : Bool := (y % 4 == 0 && y % 100 != 0) || y % 400 == 0

/-- Number of days in month `m` (1-12) of year `y`. -/
def daysInMonth (y : Nat) (m : Nat) : Nat :=
  if m = 2 then (if isLeap y then 29 else 28)
  else if m = 4 ∨ m = 6 ∨ m = 9 ∨ m = 11 then 30 else 31

/-- Days from 1970-01-01 to the civil date `y-m-d` (Hinnant's algorithm,
specialised to years ≥ 1, which is all `datetime` admits). -/
def daysFromCivil (y m d : Nat) : Int :=
  let yy := if m ≤ 2 then y - 1 else y
  let era := yy / 400
  let yoe := yy - era * 400
  let mp := if 2 < m then m - 3 else m + 9
  let doy := (153 * mp + 2) / 5 + d - 1
  let doe := yoe * 365 + yoe / 4 - yoe / 100 + doy
  (era * 146097 + doe : Int) - 719468

/-- `calendar.timegm((y, mo, d, h, mi, s, ...))`. -/
def timegm (y mo d h mi s : Nat) : Int :=
  daysFromCivil y mo d * 86400 + (h : Int) * 3600 + (mi : Int) * 60 + (s : Int)

/-- Validity of a civil date/time, as enforced by `datetime.datetime(...)`
(which raises `ValueError` outside these ranges). -/
def validCivil (y mo d h mi s : Nat) : Bool :=
  1 ≤ y && y ≤ 9999 && 1 ≤ mo && mo ≤ 12 && 1 ≤ d && d ≤ daysInMonth y mo &&
  h ≤ 23 && mi ≤ 59 && s ≤ 59

/-! ### BCD conversion (`Parser._convert_bcd`, identical in parse_velpt.py
and parse_vel3d.py) -/

/-- `_convert_bcd(cBCD)`: clamp to 0x99, then low nibble + 10 * high nibble. -/
def convert_bcd (cBCD : Nat) : Nat :=
  let c := min cBCD 0x99
  (c % 16) + 10 * (c / 16)

/-- Canonical BCD re-encoding of a two-digit integer (the inverse direction
of the round-trip property stated by the spec; not present in the source). -/
def int_to_bcd (n : Nat) : Nat := (n % 10) + 16 * (n / 10)

/-- Century pivot applied to the BCD year byte in
`parse_velpt.Parser._parse_aquadopp_packet` and
`parse_vel3d.Parser._build_parsed_system` (identical code): a converted
two-digit year ≥ 90 is in the 1900s, otherwise in the 2000s. -/
def nortek_pivot_year (yearByte : Nat) : Nat :=
  let y := convert_bcd yearByte
  if 90 ≤ y then y + 1900 else y + 2000

/-! ### Nortek checksum (`Parser._calc_checksum` in parse_velpt.py and
parse_vel3d.py): base 0xb58c plus the sum of the 16-bit little-endian words
before the checksum field, reduced modulo 65536. -/

/-- Sum of the words `record[x:x+2]` for `x in range(0, length-2, 2)`. -/
def nortekWordSum (record : List Nat) (length : Nat) : Nat :=
  (List.range ((length - 2) / 2)).foldl (fun acc k => acc + readLE16 record (2 * k)) 0

/-- `_calc_checksum(length, record)` of the Nortek (velpt/vel3d) decoders. -/
def nortek_calc_checksum (length : Nat) (record : List Nat) : Nat :=
  (46476 + nortekWordSum record length) % 65536

/-! ### MOPAK checksum (`parse_mopak.Parser._calc_checksum`): plain byte sum
of the packet without its trailing two checksum bytes, masked to 16 bits. -/

/-- `_calc_checksum(packet)` of the MOPAK decoder. -/
def mopak_calc_checksum (packet : List Nat) : Nat := byteSum packet % 65536

end Cgsn

namespace Cgsn

/-- Helper for the checksum round-trip claims: the two big-endian bytes of a
16-bit value, as they would be embedded in a MOPAK packet. -/
def be16Bytes (v : Nat) : List Nat := [v / 256 % 256, v % 256]

/-- Helper for the checksum round-trip claims: the two little-endian bytes of
a 16-bit value, as embedded in a Nortek packet. -/
def le16Bytes (v : Nat) : List Nat := [v % 256, v / 256 % 256]

/-- MOPAK frame verification as performed at parse_mopak.py line 99: the
big-endian 16-bit word unpacked from the last two bytes of the 43-byte packet
(struct code `>...H`) must equal the byte-sum checksum of `packet[:-2]`. -/
def mopak_verify (packet : List Nat) : Bool :=
  readBE16 packet (packet.length - 2) == mopak_calc_checksum (pySlice packet 0 (packet.length - 2))

/-- Nortek frame verification as performed at parse_velpt.py line 288 (and
parse_vel3d.py line 251): the little-endian 16-bit word at the end of the
declared record must equal `_calc_checksum(length, record)`. -/
def nortek_verify (length : Nat) (record : List Nat) : Bool :=
  readLE16 record (length - 2) == nortek_calc_checksum length record

/-! ### `common.dcl_to_epoch` (cgsn_parsers/parsers/common.py, lines 89-108)

The DCL timestamp string is modelled as a `List Char`.  The regular
expressions involved are fixed, so they are embedded directly:
`re.match` of `\d{4}/\d{2}/\d{2}\s\d{2}:\d{2}:60.\d{3}` (anchored at the
start, `.` matching any character except a newline, `\s` a whitespace
character), and `re.sub` of `60.\d{3}` replaced by `00.000` at every
non-overlapping occurrence, scanning left to right. -/

/-- Python regex `.` (no DOTALL): any character except a newline. -/
def anyCh (c : Char) : Bool := c != '\n'

/-- Python regex `\s`. -/
def isSpaceCh (c : Char) : Bool :=
  c == ' ' || c == '\t' || c == '\n' || c == '\r' || c == '\x0b' || c == '\x0c'

/-- Anchored match of `\d{4}/\d{2}/\d{2}\s\d{2}:\d{2}:60.\d{3}` at the start
of the string (re.match at common.py line 96). -/
def match60 (cs : List Char) : Bool :=
  (cs.getD 0 ' ').isDigit && (cs.getD 1 ' ').isDigit &&
  (cs.getD 2 ' ').isDigit && (cs.getD 3 ' ').isDigit &&
  cs.getD 4 ' ' == '/' && (cs.getD 5 ' ').isDigit && (cs.getD 6 ' ').isDigit &&
  cs.getD 7 ' ' == '/' && (cs.getD 8 ' ').isDigit && (cs.getD 9 ' ').isDigit &&
  isSpaceCh (cs.getD 10 ' ') && (cs.getD 11 ' ').isDigit && (cs.getD 12 ' ').isDigit &&
  cs.getD 13 ' ' == ':' && (cs.getD 14 ' ').isDigit && (cs.getD 15 ' ').isDigit &&
  cs.getD 16 ' ' == ':' && cs.getD 17 ' ' == '6' && cs.getD 18 ' ' == '0' &&
  anyCh (cs.getD 19 ' ') &&
  (cs.getD 20 ' ').isDigit && (cs.getD 21 ' ').isDigit && (cs.getD 22 ' ').isDigit

/-- Does `60.\d{3}` match at the head of the string? -/
def matchAt60 (cs : List Char) : Bool :=
  cs.getD 0 ' ' == '6' && cs.getD 1 ' ' == '0' && anyCh (cs.getD 2 ' ') &&
  (cs.getD 3 ' ').isDigit && (cs.getD 4 ' ').isDigit && (cs.getD 5 ' ').isDigit

/-- `re.sub('60.\d{3}', '00.000', s)`: replace every non-overlapping
occurrence, scanning left to right and resuming after each replacement.
(When the head matches, the string necessarily has the five further
characters consumed by the match, since `matchAt60` requires digits there;
the structural fallback arm is therefore unreachable.) -/
def sub60 : List Char → List Char
  | c0 :: c1 :: c2 :: c3 :: c4 :: c5 :: rest =>
    if matchAt60 (c0 :: c1 :: c2 :: c3 :: c4 :: c5 :: rest) then
      '0' :: '0' :: '.' :: '0' :: '0' :: '0' :: sub60 rest
    else
      c0 :: sub60 (c1 :: c2 :: c3 :: c4 :: c5 :: rest)
  | [] => []
  | c :: cs => c :: sub60 cs

/-- The time tuple produced by `datetime.datetime.strptime`. -/
structure TimeTuple where
  year : Nat
  mon : Nat
  day : Nat
  hour : Nat
  minute : Nat
  sec : Nat
  usec : Nat
deriving Repr, DecidableEq

/-- Numeric value of a digit character. -/
def digitVal (c : Char) : Nat := c.toNat - 48

/-- `datetime.datetime.strptime(s, '%Y/%m/%d %H:%M:%S.%f')` on a string of
the 23-character DCL shape (the only shape `dcl_to_epoch` is given, per the
`DCL_TIMESTAMP` regex): `none` models the `ValueError` raised on a
mismatched string or an out-of-range calendar field. -/
def strptimeDcl (cs : List Char) : Option TimeTuple :=
  match cs with
  | [y1, y2, y3, y4, a, m1, m2, b, d1, d2, sp, h1, h2, c1, n1, n2, c2, s1, s2, e, f1, f2, f3] =>
    if y1.isDigit && y2.isDigit && y3.isDigit && y4.isDigit && a == '/' &&
       m1.isDigit && m2.isDigit && b == '/' && d1.isDigit && d2.isDigit &&
       isSpaceCh sp && h1.isDigit && h2.isDigit && c1 == ':' &&
       n1.isDigit && n2.isDigit && c2 == ':' && s1.isDigit && s2.isDigit &&
       e == '.' && f1.isDigit && f2.isDigit && f3.isDigit then
      let y := 1000 * digitVal y1 + 100 * digitVal y2 + 10 * digitVal y3 + digitVal y4
      let mo := 10 * digitVal m1 + digitVal m2
      let dd := 10 * digitVal d1 + digitVal d2
      let hh := 10 * digitVal h1 + digitVal h2
      let mi := 10 * digitVal n1 + digitVal n2
      let ss := 10 * digitVal s1 + digitVal s2
      let us := (100 * digitVal f1 + 10 * digitVal f2 + digitVal f3) * 1000
      if validCivil y mo dd hh mi ss then
        some { year := y, mon := mo, day := dd, hour := hh, minute := mi, sec := ss, usec := us }
      else none
    else none
  | _ => none

/-- `dcl_to_epoch(time_string)` (cgsn_parsers/parsers/common.py): rewrite a
`:60.xxx` seconds field to `00.000` remembering 60 extra seconds, parse with
strptime, and return epoch seconds; `none` models the uncaught `ValueError`
from strptime / the datetime constructor. -/
def dcl_to_epoch (cs : List Char) : Option ℚ :=
  let ts := if match60 cs then sub60 cs else cs
  let tplus : ℚ := if match60 cs then 60 else 0
  (strptimeDcl ts).map fun v =>
    (timegm v.year v.mon v.day v.hour v.minute v.sec : ℚ) + (v.usec : ℚ) / 1000000 + tplus

/-! ### MOPAK decoder (cgsn_parsers/parsers/parse_mopak.py)

A MOPAK packet is 43 bytes: marker byte 0xCB, nine big-endian IEEE-754
singles (struct `>B9fIH`), a big-endian 32-bit timer, and a big-endian
16-bit checksum.  The nine `f` fields are carried as their raw 32-bit bit
patterns (the decoder never does arithmetic on them); `epts` and the
division `timer / 62500.` are exact rationals. -/

/-- The column-oriented record sink created by `ParserCommon.initialize`
with `_parameter_names_mopak`. -/
structure MopakData where
  time : List ℚ := []
  acceleration_x : List Nat := []
  acceleration_y : List Nat := []
  acceleration_z : List Nat := []
  angular_rate_x : List Nat := []
  angular_rate_y : List Nat := []
  angular_rate_z : List Nat := []
  magnetometer_x : List Nat := []
  magnetometer_y : List Nat := []
  magnetometer_z : List Nat := []
  timer : List ℚ := []
deriving Repr, DecidableEq

/-- `parse_mopak.Parser._build_parsed_values(packet, epts)`: unpack (struct
error if the packet is not exactly 43 bytes), check size and checksum
(returning `false` and leaving the sink untouched on mismatch), then append
one entry to every column and return `true`. -/
def mopak_build (packet : List Nat) (epts : ℚ) (st : MopakData) :
    Except String (MopakData × Bool) :=
  if packet.length ≠ 43 then .error "struct.error"
  else if readBE16 packet 41 ≠ mopak_calc_checksum (pySlice packet 0 (packet.length - 2)) then
    .ok (st, false)
  else
    .ok ({ st with
      time := st.time ++ [epts + (readBE32 packet 37 : ℚ) / 62500]
      acceleration_x := st.acceleration_x ++ [readBE32 packet 1]
      acceleration_y := st.acceleration_y ++ [readBE32 packet 5]
      acceleration_z := st.acceleration_z ++ [readBE32 packet 9]
      angular_rate_x := st.angular_rate_x ++ [readBE32 packet 13]
      angular_rate_y := st.angular_rate_y ++ [readBE32 packet 17]
      angular_rate_z := st.angular_rate_z ++ [readBE32 packet 21]
      magnetometer_x := st.magnetometer_x ++ [readBE32 packet 25]
      magnetometer_y := st.magnetometer_y ++ [readBE32 packet 33]
      magnetometer_z := st.magnetometer_z ++ [readBE32 packet 33]
      timer := st.timer ++ [(readBE32 packet 37 : ℚ) / 62500] }, true)

/-- The MOPAK wake-latency constant `twake = 0.053 + (2. * 100. / 1000.)`
(parse_mopak.py line 65). -/
def mopak_twake : ℚ := 53 / 1000 + 2 * 100 / 1000

/-- The checksum test a MOPAK packet must pass (parse_mopak.py line 99). -/
def mopakCkOK (p : List Nat) : Bool :=
  readBE16 p 41 == mopak_calc_checksum (pySlice p 0 (p.length - 2))

/-- The packet loop of `parse_mopak.Parser.parse_data`, after the epoch
start time `epts0` has been read from the log-file name: each regex match
start yields the 43-byte slice `raw[start:start+43]`, handed to
`_build_parsed_values` (whose boolean result is ignored). -/
def mopak_parse_loop (raw : List Nat) (epts : ℚ) :
    List Nat → MopakData → Except String MopakData
  | [], st => .ok st
  | start :: rest, st =>
    match mopak_build (pySlice raw start (start + 43)) epts st with
    | .error e => .error e
    | .ok (st', _) => mopak_parse_loop raw epts rest st'

/-- `parse_mopak.Parser.parse_data`, with the epoch timestamp `epts0`
decoded from the log-file name supplied as a parameter (the file-name
machinery lives outside the decoder), and `record_marker` the list of
regex match offsets. -/
def mopak_parse_data (raw : List Nat) (record_marker : List Nat) (epts0 : ℚ) :
    Except String MopakData :=
  mopak_parse_loop raw (epts0 + mopak_twake) record_marker {}

/-! ### OPTAA decoder (cgsn_parsers/parsers/parse_optaa.py)

An ac-s data packet is represented by its twenty regex groups, each a byte
string, exactly as `re.findall` hands them to the decoder. -/

/-- The twenty capture groups of the OPTAA packet regex
(`regex.findall` numbering, parse_optaa.py lines 23-44). -/
structure AcsPacket where
  marker : List Nat
  recLen : List Nat
  ptype : List Nat
  res1 : List Nat
  meterType : List Nat
  snHigh : List Nat
  serialNum : List Nat
  arefDark : List Nat
  pressCounts : List Nat
  asigDark : List Nat
  extTemp : List Nat
  intTemp : List Nat
  crefDark : List Nat
  csigDark : List Nat
  timeMs : List Nat
  res2 : List Nat
  nwaveB : List Nat
  body : List Nat
  check : List Nat
  pad : List Nat
deriving Repr, DecidableEq

/-- `''.join(packet[0:-2])`: groups 0 through 17, i.e. everything except
the two checksum bytes and the pad byte. -/
def acsJoin17 (p : AcsPacket) : List Nat :=
  p.marker ++ p.recLen ++ p.ptype ++ p.res1 ++ p.meterType ++ p.snHigh ++ p.serialNum ++
  p.arefDark ++ p.pressCounts ++ p.asigDark ++ p.extTemp ++ p.intTemp ++ p.crefDark ++
  p.csigDark ++ p.timeMs ++ p.res2 ++ p.nwaveB ++ p.body

/-- `parse_optaa.Parser.acs_checksum_agreement(packet)`: byte sum of groups
0-17 masked to 16 bits, compared with the big-endian checksum group. -/
def acs_checksum_agreement (p : AcsPacket) : Bool :=
  byteSum (acsJoin17 p) % 65536 == readBE16 p.check 0

/-- `struct.unpack('>H', g)[0]`, failing unless `g` is exactly 2 bytes. -/
def unpackBE16 (g : List Nat) : Except String Nat :=
  if g.length = 2 then .ok (readBE16 g 0) else .error "struct.error"

/-- `struct.unpack('>I', g)[0]`, failing unless `g` is exactly 4 bytes. -/
def unpackBE32 (g : List Nat) : Except String Nat :=
  if g.length = 4 then .ok (readBE32 g 0) else .error "struct.error"

/-- `struct.unpack('B', g)[0]`, failing unless `g` is exactly 1 byte. -/
def unpackU8 (g : List Nat) : Except String Nat :=
  if g.length = 1 then .ok (u8 g 0) else .error "struct.error"

/-- `struct.unpack('>' + 'H' * count, g)`, failing unless `g` is exactly
`2 * count` bytes. -/
def unpackBE16s (g : List Nat) (count : Nat) : Except String (List Nat) :=
  if g.length = 2 * count then
    .ok ((List.range count).map fun k => readBE16 g (2 * k))
  else .error "struct.error"

/-- Python stride slice `l[start::4]` for `start < 4`. -/
def pyStride4 (l : List Nat) (start : Nat) : List Nat :=
  (List.range ((l.length - start + 3) / 4)).map fun k => l.getD (start + 4 * k) 0

/-- The column-oriented record sink created by `ParserCommon.initialize`
with `_parameter_names_optaa`. -/
structure OptaaData where
  time : List ℚ := []
  serial_number : List Nat := []
  a_reference_dark_counts : List Nat := []
  pressure_counts : List Nat := []
  a_signal_dark_counts : List Nat := []
  raw_external_temperature_counts : List Nat := []
  raw_internal_temperature_counts : List Nat := []
  c_reference_dark_counts : List Nat := []
  c_signal_dark_counts : List Nat := []
  time_msec_since_power_up : List Nat := []
  number_of_wavelengths : List Nat := []
  cref_raw_counts : List (List Nat) := []
  aref_raw_counts : List (List Nat) := []
  csig_raw_counts : List (List Nat) := []
  asig_raw_counts : List (List Nat) := []
deriving Repr, DecidableEq

/-- `parse_optaa.Parser._build_parsed_values(match, nwave, time0)`
(parse_optaa.py lines 119-151): the time append happens first, then the
optical-data unpack; the remaining `struct.unpack` calls of the fixed-width
groups can each fail only when their group has the wrong length, and all
with the same struct error, so they are folded into one length guard. -/
def optaa_build (p : AcsPacket) (nwave : Nat) (time0 : ℚ) (st : OptaaData) :
    Except String OptaaData :=
  match unpackBE32 p.timeMs with
  | .error e => .error e
  | .ok tms =>
    let st := { st with time := st.time ++ [time0 + (tms : ℚ) / 1000] }
    match unpackBE16s p.body (4 * nwave) with
    | .error e => .error e
    | .ok optical =>
      if p.serialNum.length = 2 ∧ p.arefDark.length = 2 ∧ p.pressCounts.length = 2 ∧
          p.asigDark.length = 2 ∧ p.extTemp.length = 2 ∧ p.intTemp.length = 2 ∧
          p.crefDark.length = 2 ∧ p.csigDark.length = 2 ∧ p.nwaveB.length = 1 then
        .ok { st with
          serial_number := st.serial_number ++ [readBE16 p.serialNum 0]
          a_reference_dark_counts := st.a_reference_dark_counts ++ [readBE16 p.arefDark 0]
          pressure_counts := st.pressure_counts ++ [readBE16 p.pressCounts 0]
          a_signal_dark_counts := st.a_signal_dark_counts ++ [readBE16 p.asigDark 0]
          raw_external_temperature_counts := st.raw_external_temperature_counts ++
            [readBE16 p.extTemp 0]
          raw_internal_temperature_counts := st.raw_internal_temperature_counts ++
            [readBE16 p.intTemp 0]
          c_reference_dark_counts := st.c_reference_dark_counts ++ [readBE16 p.crefDark 0]
          c_signal_dark_counts := st.c_signal_dark_counts ++ [readBE16 p.csigDark 0]
          time_msec_since_power_up := st.time_msec_since_power_up ++ [tms]
          number_of_wavelengths := st.number_of_wavelengths ++ [u8 p.nwaveB 0]
          cref_raw_counts := st.cref_raw_counts ++ [pyStride4 optical 0]
          aref_raw_counts := st.aref_raw_counts ++ [pyStride4 optical 1]
          csig_raw_counts := st.csig_raw_counts ++ [pyStride4 optical 2]
          asig_raw_counts := st.asig_raw_counts ++ [pyStride4 optical 3] }
      else .error "struct.error"

/-- The packet loop at the end of `parse_optaa.Parser.parse_data`: build
each packet whose checksum agrees, skip the others. -/
def optaa_parse_loop (nwave : Nat) (time0 : ℚ) :
    List AcsPacket → OptaaData → Except String OptaaData
  | [], st => .ok st
  | p :: rest, st =>
    if acs_checksum_agreement p then
      match optaa_build p nwave time0 st with
      | .error e => .error e
      | .ok st' => optaa_parse_loop nwave time0 rest st'
    else
      optaa_parse_loop nwave time0 rest st

/-- `parse_optaa.Parser.parse_data`, with the first matched packet
(`packet0`, from the `.*?`-bodied search pattern), the list of fixed-width
packet matches, and the file-name epoch `epts` supplied as parameters (the
regex scanning and file-name machinery live outside the decoder).  The
record-length/nwave consistency check uses Python 2 floor division; on
mismatch the uncaught `Exception` aborts the whole parse. -/
def optaa_parse_data (packet0 : AcsPacket) (packets : List AcsPacket) (epts : ℚ) :
    Except String OptaaData :=
  match unpackBE16 packet0.recLen with
  | .error e => .error e
  | .ok record_length =>
    match unpackU8 packet0.nwaveB with
    | .error e => .error e
    | .ok nwave =>
      if (nwave : Int) ≠ ((record_length : Int) - 32).fdiv 8 then
        .error "optaa data packet: record length does not match nwave."
      else
        match unpackBE32 packet0.timeMs with
        | .error e => .error e
        | .ok t0 =>
          optaa_parse_loop nwave (epts - (t0 : ℚ) / 1000) packets {}

/-! ### VEL3D decoder (cgsn_parsers/parsers/parse_vel3d.py)

Only the system and velocity tables are embedded (the header table is
filled by the independent `parse_header` method, which no claim touches).
Scale factors such as `* 0.1` are exact rationals. -/

/-- The system subtype table of the VEL3D record sink. -/
structure Vel3dSystemT where
  time : List Int := []
  date_time_array : List (List Nat) := []
  battery_voltage : List ℚ := []
  speed_of_sound : List ℚ := []
  heading : List ℚ := []
  pitch : List ℚ := []
  roll : List ℚ := []
  temperature : List ℚ := []
  error_code : List Int := []
  status_code : List Int := []
deriving Repr, DecidableEq

/-- The velocity subtype table of the VEL3D record sink. -/
structure Vel3dVelocityT where
  time : List ℚ := []
  ensemble_counter : List Nat := []
  pressure : List ℚ := []
  velocity_east : List Int := []
  velocity_north : List Int := []
  velocity_vertical : List Int := []
  amplitudes : List (List Nat) := []
  correlations : List (List Nat) := []
deriving Repr, DecidableEq

/-- The VEL3D record sink (system and velocity subtype tables). -/
structure Vel3dData where
  system : Vel3dSystemT := {}
  velocity : Vel3dVelocityT := {}
deriving Repr, DecidableEq

/-- `parse_vel3d.Parser._build_parsed_system(system)`: unpack the 28-byte
packet (struct `<2BH6B2H4h2b2H`), return `false` without touching the sink
on a size or checksum mismatch, convert the BCD clock (century pivot, then
`datetime`, whose `ValueError` on an invalid date is an uncaught
exception), and append one entry to every system column. -/
def vel3d_build_system (system : List Nat) (st : Vel3dData) :
    Except String (Vel3dData × Bool) :=
  if system.length ≠ 28 then .error "struct.error"
  else if (readLE16 system 2) * 2 ≠ 28 then .ok (st, false)
  else if readLE16 system 26 ≠ nortek_calc_checksum ((readLE16 system 2) * 2) system then
    .ok (st, false)
  else
    let year := nortek_pivot_year (u8 system 8)
    let month := convert_bcd (u8 system 9)
    let day := convert_bcd (u8 system 6)
    let hour := convert_bcd (u8 system 7)
    let minute := convert_bcd (u8 system 4)
    let second := convert_bcd (u8 system 5)
    if ¬ validCivil year month day hour minute second then .error "ValueError"
    else
      let epts := timegm year month day hour minute second
      .ok ({ st with system := { st.system with
        time := st.system.time ++ [epts]
        date_time_array := st.system.date_time_array ++ [[year, month, day, hour, minute, second]]
        battery_voltage := st.system.battery_voltage ++ [(readLE16 system 10 : ℚ) * (1 / 10)]
        speed_of_sound := st.system.speed_of_sound ++ [(readLE16 system 12 : ℚ) * (1 / 10)]
        heading := st.system.heading ++ [(readLE16s system 14 : ℚ) * (1 / 10)]
        pitch := st.system.pitch ++ [(readLE16s system 16 : ℚ) * (1 / 10)]
        roll := st.system.roll ++ [(readLE16s system 18 : ℚ) * (1 / 10)]
        temperature := st.system.temperature ++ [(readLE16s system 20 : ℚ) * (1 / 100)]
        error_code := st.system.error_code ++ [asI8 (u8 system 22)]
        status_code := st.system.status_code ++ [asI8 (u8 system 23)] } }, true)

/-- `parse_vel3d.Parser._build_parsed_velocity(velocity)`: unpack the
24-byte packet (struct `<6B2H3h6BH`), return `false` on a size or checksum
mismatch, and append to every velocity column except `time` (which the
calling loop appends separately). -/
def vel3d_build_velocity (velocity : List Nat) (st : Vel3dData) :
    Except String (Vel3dData × Bool) :=
  if velocity.length ≠ 24 then .error "struct.error"
  else if velocity.length ≠ 24 then .ok (st, false)
  else if readLE16 velocity 22 ≠ nortek_calc_checksum velocity.length velocity then
    .ok (st, false)
  else
    let dbar : ℚ := ((65536 * u8 velocity 4 + readLE16 velocity 6 : Nat) : ℚ) * (1 / 1000)
    .ok ({ st with velocity := { st.velocity with
      ensemble_counter := st.velocity.ensemble_counter ++ [u8 velocity 3]
      pressure := st.velocity.pressure ++ [dbar]
      velocity_east := st.velocity.velocity_east ++ [readLE16s velocity 10]
      velocity_north := st.velocity.velocity_north ++ [readLE16s velocity 12]
      velocity_vertical := st.velocity.velocity_vertical ++ [readLE16s velocity 14]
      amplitudes := st.velocity.amplitudes ++ [[u8 velocity 16, u8 velocity 17, u8 velocity 18]]
      correlations := st.velocity.correlations ++
        [[u8 velocity 19, u8 velocity 20, u8 velocity 21]] } }, true)

/-- The inner `while velocity_marker` loop of
`parse_vel3d.Parser.parse_velocity` (lines 163-185): skip markers before
the current system packet, stop at the first marker past `last`, otherwise
decode the 24-byte velocity packet and append the interpolated time
`float(time) + float(cnt) * 1 / sample_rate` (the build result is ignored,
so `velocity.time` grows even for packets the build rejected).  Returns the
unconsumed velocity markers together with the updated sink. -/
def vel3d_inner (raw : List Nat) (last start : Nat) (time : Int) (rate : ℚ) :
    List Nat → Nat → Vel3dData → Except String (List Nat × Vel3dData)
  | [], _cnt, st => .ok ([], st)
  | v :: vs, cnt, st =>
    if v < start then vel3d_inner raw last start time rate vs cnt st
    else if last < v then .ok (v :: vs, st)
    else
      match vel3d_build_velocity (pySlice raw v (v + 24)) st with
      | .error e => .error e
      | .ok (st1, _) =>
        let vtime : ℚ := (time : ℚ) + (cnt : ℚ) * 1 / rate
        let st2 := { st1 with velocity := { st1.velocity with
          time := st1.velocity.time ++ [vtime] } }
        vel3d_inner raw last start time rate vs (cnt + 1) st2

/-- The outer `while system_marker` loop of
`parse_vel3d.Parser.parse_velocity` (lines 143-188): decode each 28-byte
system packet, read `self.data.system['time'][-1]` (an uncaught
`IndexError` when no system packet has ever been parsed), and when the
current system packet parsed, consume the velocity packets lying between it
and the next system marker. -/
def vel3d_outer (raw : List Nat) (rate : ℚ) :
    List Nat → List Nat → Vel3dData → Except String Vel3dData
  | [], _vels, st => .ok st
  | start :: rest, vels, st =>
    let last := match rest with
      | [] => raw.length
      | r :: _ => r
    match vel3d_build_system (pySlice raw start (start + 28)) st with
    | .error e => .error e
    | .ok (st1, ok) =>
      match st1.system.time.getLast? with
      | none => .error "IndexError"
      | some time =>
        if ok then
          match vel3d_inner raw last start time rate vels 0 st1 with
          | .error e => .error e
          | .ok (vels', st2) => vel3d_outer raw rate rest vels' st2
        else
          vel3d_outer raw rate rest vels st1

/-- `parse_vel3d.Parser.parse_velocity`, with the regex match offsets of
the system and velocity packets supplied as parameters. -/
def vel3d_parse_velocity (raw : List Nat) (system_marker velocity_marker : List Nat)
    (rate : ℚ) : Except String Vel3dData :=
  vel3d_outer raw rate system_marker velocity_marker {}

/-! ### VELPT decoder (cgsn_parsers/parsers/parse_velpt.py)

`_parse_aquadopp_packet` decodes the 42-byte Aquadopp velocity/diagnostics
packet; it returns an empty list (modelled `none`) on a size or checksum
mismatch, and its `datetime` call raises an uncaught `ValueError` on an
invalid BCD date. -/

/-- The 17 values returned by `_parse_aquadopp_packet`. -/
structure AquadoppRec where
  epts : Int
  date_time_array : List Nat
  error_code : Int
  battery : Nat
  speed : Nat
  heading : Int
  pitch : Int
  roll : Int
  dbar : ℚ
  status : Int
  temp : Int
  vel1 : Int
  vel2 : Int
  vel3 : Int
  amp1 : Nat
  amp2 : Nat
  amp3 : Nat
deriving Repr, DecidableEq

/-- `parse_velpt.Parser._parse_aquadopp_packet(packet)` (struct
`<2BH6B2h2H3hBbHh3h3BbH`). -/
def velpt_parse_aquadopp (packet : List Nat) : Except String (Option AquadoppRec) :=
  if packet.length ≠ 42 then .error "struct.error"
  else if (readLE16 packet 2) * 2 ≠ 42 then .ok none
  else if readLE16 packet 40 ≠ nortek_calc_checksum ((readLE16 packet 2) * 2) packet then
    .ok none
  else
    let year := nortek_pivot_year (u8 packet 8)
    let month := convert_bcd (u8 packet 9)
    let day := convert_bcd (u8 packet 6)
    let hour := convert_bcd (u8 packet 7)
    let minute := convert_bcd (u8 packet 4)
    let second := convert_bcd (u8 packet 5)
    if ¬ validCivil year month day hour minute second then .error "ValueError"
    else
      .ok (some {
        epts := timegm year month day hour minute second
        date_time_array := [year, month, day, hour, minute, second]
        error_code := readLE16s packet 10
        battery := readLE16 packet 14
        speed := readLE16 packet 16
        heading := readLE16s packet 18
        pitch := readLE16s packet 20
        roll := readLE16s packet 22
        dbar := ((65536 * u8 packet 24 + readLE16 packet 26 : Nat) : ℚ) * (1 / 1000)
        status := asI8 (u8 packet 25)
        temp := readLE16s packet 28
        vel1 := readLE16s packet 30
        vel2 := readLE16s packet 32
        vel3 := readLE16s packet 34
        amp1 := u8 packet 36
        amp2 := u8 packet 37
        amp3 := u8 packet 38 })

/-! ### ADCP decoder (cgsn_parsers/parsers/parse_adcp.py)

A Teledyne WorkHorse PD0 ensemble arrives as one ASCIIHEX line with a DCL
timestamp; a matched line is modelled by the timestamp characters (regex
group 1) plus the ensemble bytes (the `unhexlify` of groups 2-6, so byte 0
is the first `0x7F`).  The record sink mirrors
`parse_adcp.ParameterNames.create_dict`: one growable column per parameter,
organised into the header/fixed/variable/velocity/correlation/echo/percent
subtype tables plus the top-level `time` column. -/

/-- Header subtype table. -/
structure AdcpHeaderT where
  num_bytes : List Nat := []
  num_data_types : List Nat := []
deriving Repr, DecidableEq

/-- Fixed-leader subtype table. -/
structure AdcpFixedT where
  firmware_version : List Nat := []
  firmware_revision : List Nat := []
  sysconfig_frequency : List Nat := []
  sysconfig_beam_pattern : List Nat := []
  sysconfig_sensor_config : List Nat := []
  sysconfig_head_attached : List Nat := []
  sysconfig_vertical_orientation : List Nat := []
  data_flag : List Nat := []
  lag_length : List Nat := []
  num_beams : List Nat := []
  num_cells : List Nat := []
  pings_per_ensemble : List Nat := []
  depth_cell_length : List Nat := []
  blank_after_transmit : List Nat := []
  signal_processing_mode : List Nat := []
  low_corr_threshold : List Nat := []
  num_code_repetitions : List Nat := []
  percent_good_min : List Nat := []
  error_vel_threshold : List Nat := []
  time_per_ping_minutes : List Nat := []
  time_per_ping_seconds : List Nat := []
  coord_transform_type : List Nat := []
  coord_transform_tilts : List Nat := []
  coord_transform_beams : List Nat := []
  coord_transform_mapping : List Nat := []
  heading_alignment : List Int := []
  heading_bias : List Int := []
  sensor_source_speed : List Nat := []
  sensor_source_depth : List Nat := []
  sensor_source_heading : List Nat := []
  sensor_source_pitch : List Nat := []
  sensor_source_roll : List Nat := []
  sensor_source_conductivity : List Nat := []
  sensor_source_temperature : List Nat := []
  sensor_available_depth : List Nat := []
  sensor_available_heading : List Nat := []
  sensor_available_pitch : List Nat := []
  sensor_available_roll : List Nat := []
  sensor_available_conductivity : List Nat := []
  sensor_available_temperature : List Nat := []
  bin_1_distance : List Nat := []
  transmit_pulse_length : List Nat := []
  reference_layer_start : List Nat := []
  reference_layer_stop : List Nat := []
  false_target_threshold : List Nat := []
  transmit_lag_distance : List Nat := []
  system_bandwidth : List Nat := []
  serial_number : List Nat := []
  beam_angle : List Nat := []
deriving Repr, DecidableEq

/-- Variable-leader subtype table. -/
structure AdcpVariableT where
  ensemble_number : List Nat := []
  ensemble_number_increment : List Nat := []
  real_time_clock1 : List (List Nat) := []
  bit_result_demod_1 : List Nat := []
  bit_result_demod_2 : List Nat := []
  bit_result_timing : List Nat := []
  speed_of_sound : List Nat := []
  transducer_depth : List Nat := []
  heading : List Nat := []
  pitch : List Int := []
  roll : List Int := []
  salinity : List Nat := []
  temperature : List Int := []
  mpt_minutes : List Nat := []
  mpt_seconds : List Nat := []
  heading_stdev : List Nat := []
  pitch_stdev : List Nat := []
  roll_stdev : List Nat := []
  adc_transmit_current : List Nat := []
  adc_transmit_voltage : List Nat := []
  adc_ambient_temp : List Nat := []
  adc_pressure_plus : List Nat := []
  adc_pressure_minus : List Nat := []
  adc_attitude_temp : List Nat := []
  adc_attitude : List Nat := []
  adc_contamination_sensor : List Nat := []
  bus_error_exception : List Nat := []
  address_error_exception : List Nat := []
  illegal_instruction_exception : List Nat := []
  zero_divide_instruction : List Nat := []
  emulator_exception : List Nat := []
  unassigned_exception : List Nat := []
  watchdog_restart_occurred : List Nat := []
  battery_saver_power : List Nat := []
  pinging : List Nat := []
  cold_wakeup_occurred : List Nat := []
  unknown_wakeup_occurred : List Nat := []
  clock_read_error : List Nat := []
  unexpected_alarm : List Nat := []
  clock_jump_forward : List Nat := []
  clock_jump_backward : List Nat := []
  power_fail : List Nat := []
  spurious_dsp_interrupt : List Nat := []
  spurious_uart_interrupt : List Nat := []
  spurious_clock_interrupt : List Nat := []
  level_7_interrupt : List Nat := []
  pressure : List Nat := []
  pressure_variance : List Nat := []
  real_time_clock2 : List (List Nat) := []
deriving Repr, DecidableEq

/-- Velocity subtype table (per-ensemble per-beam arrays of signed counts). -/
structure AdcpVelocityT where
  eastward : List (List Int) := []
  northward : List (List Int) := []
  vertical : List (List Int) := []
  error : List (List Int) := []
deriving Repr, DecidableEq

/-- Correlation-magnitude subtype table. -/
structure AdcpCorrelationT where
  magnitude_beam1 : List (List Nat) := []
  magnitude_beam2 : List (List Nat) := []
  magnitude_beam3 : List (List Nat) := []
  magnitude_beam4 : List (List Nat) := []
deriving Repr, DecidableEq

/-- Echo-intensity subtype table. -/
structure AdcpEchoT where
  intensity_beam1 : List (List Nat) := []
  intensity_beam2 : List (List Nat) := []
  intensity_beam3 : List (List Nat) := []
  intensity_beam4 : List (List Nat) := []
deriving Repr, DecidableEq

/-- Percent-good subtype table. -/
structure AdcpPercentT where
  good_3beam : List (List Nat) := []
  transforms_reject : List (List Nat) := []
  bad_beams : List (List Nat) := []
  good_4beam : List (List Nat) := []
deriving Repr, DecidableEq

/-- The full ADCP record sink (`ParameterNames.create_dict`). -/
structure AdcpData where
  time : List ℚ := []
  header : AdcpHeaderT := {}
  fixed : AdcpFixedT := {}
  variable_leader : AdcpVariableT := {}
  velocity : AdcpVelocityT := {}
  correlation : AdcpCorrelationT := {}
  echo : AdcpEchoT := {}
  percent : AdcpPercentT := {}
deriving Repr, DecidableEq

/-- Python's `1 if v & mask else 0`. -/
def bitFlag (v mask : Nat) : Nat := if v &&& mask ≠ 0 then 1 else 0

/-- `parse_adcp.Parser._parse_fixed_chunk(chunk)` (struct
`<H2BH4B3H4BH4B2h2B2H4BHQH2BIB`, 59 bytes).  In the source the appends are
interleaved with the id/flag checks, but a raise propagates uncaught out of
`parse_data`, so the partially-appended sink of a failing chunk is never
observable; the checks (in source order: struct length, leader id,
frequency-table index, data flag, signal-processing mode) are therefore
hoisted ahead of one batched update, which returns the same value in every
case.  Returns the updated sink together with `num_cells`
(`self.num_depth_cells`, picked up by the caller as `iCells`). -/
def adcp_parse_fixed_chunk (chunk : List Nat) (st : AdcpData) :
    Except String (AdcpData × Nat) :=
  if chunk.length ≠ 59 then .error "struct.error"
  else
    let sysconfig_frequency := readLE16 chunk 4
    let data_flag := u8 chunk 6
    let num_cells := u8 chunk 9
    let signal_processing_mode := u8 chunk 16
    let coord_transform_type := u8 chunk 25
    let sensor_source := u8 chunk 30
    let sensor_available := u8 chunk 31
    if readLE16 chunk 0 ≠ 0 then .error "fixed_leader_id was not equal to 0"
    else
      match ([75, 150, 300, 600, 1200, 2400] : List Nat).get?
          (sysconfig_frequency &&& 0b00000111) with
      | none => .error "IndexError"
      | some freq =>
        if data_flag ≠ 0 then .error "data_flag was not equal to 0"
        else if signal_processing_mode ≠ 1 then
          .error "signal_processing_mode was not equal to 1"
        else
            .ok ({ st with fixed := { st.fixed with
              firmware_version := st.fixed.firmware_version ++ [u8 chunk 2]
              firmware_revision := st.fixed.firmware_revision ++ [u8 chunk 3]
              sysconfig_frequency := st.fixed.sysconfig_frequency ++ [freq]
              sysconfig_beam_pattern := st.fixed.sysconfig_beam_pattern ++
                [bitFlag sysconfig_frequency 0b00001000]
              sysconfig_sensor_config := st.fixed.sysconfig_sensor_config ++
                [sysconfig_frequency &&& 0b00110000 >>> 4]
              sysconfig_head_attached := st.fixed.sysconfig_head_attached ++
                [bitFlag sysconfig_frequency 0b01000000]
              sysconfig_vertical_orientation := st.fixed.sysconfig_vertical_orientation ++
                [bitFlag sysconfig_frequency 0b10000000]
              data_flag := st.fixed.data_flag ++ [data_flag]
              lag_length := st.fixed.lag_length ++ [u8 chunk 7]
              num_beams := st.fixed.num_beams ++ [u8 chunk 8]
              num_cells := st.fixed.num_cells ++ [num_cells]
              pings_per_ensemble := st.fixed.pings_per_ensemble ++ [readLE16 chunk 10]
              depth_cell_length := st.fixed.depth_cell_length ++ [readLE16 chunk 12]
              blank_after_transmit := st.fixed.blank_after_transmit ++ [readLE16 chunk 14]
              signal_processing_mode := st.fixed.signal_processing_mode ++
                [signal_processing_mode]
              low_corr_threshold := st.fixed.low_corr_threshold ++ [u8 chunk 17]
              num_code_repetitions := st.fixed.num_code_repetitions ++ [u8 chunk 18]
              percent_good_min := st.fixed.percent_good_min ++ [u8 chunk 19]
              error_vel_threshold := st.fixed.error_vel_threshold ++ [readLE16 chunk 20]
              time_per_ping_minutes := st.fixed.time_per_ping_minutes ++ [u8 chunk 22]
              time_per_ping_seconds := st.fixed.time_per_ping_seconds ++
                [u8 chunk 23 + u8 chunk 24 / 100]
              coord_transform_type := st.fixed.coord_transform_type ++
                [coord_transform_type &&& 0b00011000 >>> 3]
              coord_transform_tilts := st.fixed.coord_transform_tilts ++
                [bitFlag coord_transform_type 0b00000100]
              coord_transform_beams := st.fixed.coord_transform_beams ++
                [bitFlag coord_transform_type 0b0000000]
              coord_transform_mapping := st.fixed.coord_transform_mapping ++
                [bitFlag coord_transform_type 0b00000001]
              heading_alignment := st.fixed.heading_alignment ++ [readLE16s chunk 26]
              heading_bias := st.fixed.heading_bias ++ [readLE16s chunk 28]
              sensor_source_speed := st.fixed.sensor_source_speed ++
                [bitFlag sensor_source 0b01000000]
              sensor_source_depth := st.fixed.sensor_source_depth ++
                [bitFlag sensor_source 0b00100000]
              sensor_source_heading := st.fixed.sensor_source_heading ++
                [bitFlag sensor_source 0b00010000]
              sensor_source_pitch := st.fixed.sensor_source_pitch ++
                [bitFlag sensor_source 0b00001000]
              sensor_source_roll := st.fixed.sensor_source_roll ++
                [bitFlag sensor_source 0b00000100]
              sensor_source_conductivity := st.fixed.sensor_source_conductivity ++
                [bitFlag sensor_source 0b00000010]
              sensor_source_temperature := st.fixed.sensor_source_temperature ++
                [bitFlag sensor_source 0b00000001]
              sensor_available_depth := st.fixed.sensor_available_depth ++
                [bitFlag sensor_available 0b00100000]
              sensor_available_heading := st.fixed.sensor_available_heading ++
                [bitFlag sensor_available 0b00010000]
              sensor_available_pitch := st.fixed.sensor_available_pitch ++
                [bitFlag sensor_available 0b00001000]
              sensor_available_roll := st.fixed.sensor_available_roll ++
                [bitFlag sensor_available 0b00000100]
              sensor_available_conductivity := st.fixed.sensor_available_conductivity ++
                [bitFlag sensor_available 0b00000010]
              sensor_available_temperature := st.fixed.sensor_available_temperature ++
                [bitFlag sensor_available 0b00000001]
              bin_1_distance := st.fixed.bin_1_distance ++ [readLE16 chunk 32]
              transmit_pulse_length := st.fixed.transmit_pulse_length ++ [readLE16 chunk 34]
              reference_layer_start := st.fixed.reference_layer_start ++ [u8 chunk 36]
              reference_layer_stop := st.fixed.reference_layer_stop ++ [u8 chunk 37]
              false_target_threshold := st.fixed.false_target_threshold ++ [u8 chunk 38]
              transmit_lag_distance := st.fixed.transmit_lag_distance ++ [readLE16 chunk 40]
              system_bandwidth := st.fixed.system_bandwidth ++ [readLE16 chunk 50]
              serial_number := st.fixed.serial_number ++ [readLE32 chunk 54]
              beam_angle := st.fixed.beam_angle ++ [u8 chunk 58] } }, num_cells)

/-- `parse_adcp.Parser._parse_variable_chunk(chunk)` (struct
`<2H10B3H2hHh18BH2I9B`, 65 bytes). -/
def adcp_parse_variable_chunk (chunk : List Nat) (st : AdcpData) :
    Except String AdcpData :=
  if chunk.length ≠ 65 then .error "struct.error"
  else if readLE16 chunk 0 ≠ 128 then .error "variable_leader_id was not equal to 128"
  else
  let error_bit_field := u8 chunk 12
  let esw1 := u8 chunk 42
  let esw3 := u8 chunk 44
  let esw4 := u8 chunk 45
  .ok { st with variable_leader := { st.variable_leader with
    ensemble_number := st.variable_leader.ensemble_number ++ [readLE16 chunk 2]
    ensemble_number_increment := st.variable_leader.ensemble_number_increment ++ [u8 chunk 11]
    real_time_clock1 := st.variable_leader.real_time_clock1 ++
      [[u8 chunk 4, u8 chunk 5, u8 chunk 6, u8 chunk 7, u8 chunk 8, u8 chunk 9, u8 chunk 10]]
    bit_result_demod_1 := st.variable_leader.bit_result_demod_1 ++ [bitFlag error_bit_field 0b00001000]
    bit_result_demod_2 := st.variable_leader.bit_result_demod_2 ++ [bitFlag error_bit_field 0b00010000]
    bit_result_timing := st.variable_leader.bit_result_timing ++ [bitFlag error_bit_field 0b00000010]
    speed_of_sound := st.variable_leader.speed_of_sound ++ [readLE16 chunk 14]
    transducer_depth := st.variable_leader.transducer_depth ++ [readLE16 chunk 16]
    heading := st.variable_leader.heading ++ [readLE16 chunk 18]
    pitch := st.variable_leader.pitch ++ [readLE16s chunk 20]
    roll := st.variable_leader.roll ++ [readLE16s chunk 22]
    salinity := st.variable_leader.salinity ++ [readLE16 chunk 24]
    temperature := st.variable_leader.temperature ++ [readLE16s chunk 26]
    mpt_minutes := st.variable_leader.mpt_minutes ++ [u8 chunk 28]
    mpt_seconds := st.variable_leader.mpt_seconds ++ [u8 chunk 29 + u8 chunk 30 / 100]
    heading_stdev := st.variable_leader.heading_stdev ++ [u8 chunk 31]
    pitch_stdev := st.variable_leader.pitch_stdev ++ [u8 chunk 32]
    roll_stdev := st.variable_leader.roll_stdev ++ [u8 chunk 33]
    adc_transmit_current := st.variable_leader.adc_transmit_current ++ [u8 chunk 34]
    adc_transmit_voltage := st.variable_leader.adc_transmit_voltage ++ [u8 chunk 35]
    adc_ambient_temp := st.variable_leader.adc_ambient_temp ++ [u8 chunk 36]
    adc_pressure_plus := st.variable_leader.adc_pressure_plus ++ [u8 chunk 37]
    adc_pressure_minus := st.variable_leader.adc_pressure_minus ++ [u8 chunk 38]
    adc_attitude_temp := st.variable_leader.adc_attitude_temp ++ [u8 chunk 39]
    adc_attitude := st.variable_leader.adc_attitude ++ [u8 chunk 40]
    adc_contamination_sensor := st.variable_leader.adc_contamination_sensor ++ [u8 chunk 41]
    bus_error_exception := st.variable_leader.bus_error_exception ++ [bitFlag esw1 0b00000001]
    address_error_exception := st.variable_leader.address_error_exception ++ [bitFlag esw1 0b00000010]
    illegal_instruction_exception := st.variable_leader.illegal_instruction_exception ++
      [bitFlag esw1 0b00000100]
    zero_divide_instruction := st.variable_leader.zero_divide_instruction ++ [bitFlag esw1 0b00001000]
    emulator_exception := st.variable_leader.emulator_exception ++ [bitFlag esw1 0b00010000]
    unassigned_exception := st.variable_leader.unassigned_exception ++ [bitFlag esw1 0b00100000]
    watchdog_restart_occurred := st.variable_leader.watchdog_restart_occurred ++
      [bitFlag esw1 0b01000000]
    battery_saver_power := st.variable_leader.battery_saver_power ++ [bitFlag esw1 0b10000000]
    pinging := st.variable_leader.pinging ++ [bitFlag esw1 0b00000001]
    cold_wakeup_occurred := st.variable_leader.cold_wakeup_occurred ++ [bitFlag esw1 0b01000000]
    unknown_wakeup_occurred := st.variable_leader.unknown_wakeup_occurred ++ [bitFlag esw1 0b10000000]
    clock_read_error := st.variable_leader.clock_read_error ++ [bitFlag esw3 0b00000001]
    unexpected_alarm := st.variable_leader.unexpected_alarm ++ [bitFlag esw3 0b00000010]
    clock_jump_forward := st.variable_leader.clock_jump_forward ++ [bitFlag esw3 0b00000100]
    clock_jump_backward := st.variable_leader.clock_jump_backward ++ [bitFlag esw3 0b00001000]
    power_fail := st.variable_leader.power_fail ++ [bitFlag esw4 0b00001000]
    spurious_dsp_interrupt := st.variable_leader.spurious_dsp_interrupt ++ [bitFlag esw4 0b00010000]
    spurious_uart_interrupt := st.variable_leader.spurious_uart_interrupt ++ [bitFlag esw4 0b00100000]
    spurious_clock_interrupt := st.variable_leader.spurious_clock_interrupt ++ [bitFlag esw4 0b01000000]
    level_7_interrupt := st.variable_leader.level_7_interrupt ++ [bitFlag esw4 0b10000000]
    pressure := st.variable_leader.pressure ++ [readLE32 chunk 48]
    pressure_variance := st.variable_leader.pressure_variance ++ [readLE32 chunk 52]
    real_time_clock2 := st.variable_leader.real_time_clock2 ++
      [[u8 chunk 57, u8 chunk 58, u8 chunk 59, u8 chunk 60,
        u8 chunk 61, u8 chunk 62, u8 chunk 63, u8 chunk 64]] } }

/-- The row loop `for row in range(1, N)` shared by the velocity chunk
parser: `cnt` rows of four signed LE shorts, read at `chunk[offset + 2 :
offset + 10]` with `offset` advancing by 8. -/
def adcpReadRows4h (chunk : List Nat) : Nat → Nat → Except String (List (Int × Int × Int × Int))
  | _off, 0 => .ok []
  | off, k + 1 =>
    let s := pySlice chunk (off + 2) (off + 10)
    if s.length ≠ 8 then .error "struct.error"
    else
      match adcpReadRows4h chunk (off + 8) k with
      | .error e => .error e
      | .ok rest => .ok ((readLE16s s 0, readLE16s s 2, readLE16s s 4, readLE16s s 6) :: rest)

/-- The row loop `for row in range(1, N)` shared by the correlation, echo
and percent-good chunk parsers: `cnt` rows of four bytes, read at
`chunk[offset + 2 : offset + 6]` with `offset` advancing by 4. -/
def adcpReadRows4B (chunk : List Nat) : Nat → Nat → Except String (List (Nat × Nat × Nat × Nat))
  | _off, 0 => .ok []
  | off, k + 1 =>
    let s := pySlice chunk (off + 2) (off + 6)
    if s.length ≠ 4 then .error "struct.error"
    else
      match adcpReadRows4B chunk (off + 4) k with
      | .error e => .error e
      | .ok rest => .ok ((u8 s 0, u8 s 1, u8 s 2, u8 s 3) :: rest)

/-- `parse_adcp.Parser._parse_velocity_chunk(chunk)`: `N = (len(chunk) -
2) / 2 / 4` depth cells, but the loop `for row in range(1, N)` reads only
`N - 1` rows. -/
def adcp_parse_velocity_chunk (chunk : List Nat) (st : AdcpData) :
    Except String AdcpData :=
  let N := (chunk.length - 2) / 2 / 4
  let ids := pySlice chunk 0 2
  if ids.length ≠ 2 then .error "struct.error"
  else if readLE16 ids 0 ≠ 256 then .error "velocity_data_id was not equal to 256"
  else
    match adcpReadRows4h chunk 0 (N - 1) with
    | .error e => .error e
    | .ok rows =>
      .ok { st with velocity := { st.velocity with
    eastward := st.velocity.eastward ++ [rows.map fun r => r.1]
    northward := st.velocity.northward ++ [rows.map fun r => r.2.1]
    vertical := st.velocity.vertical ++ [rows.map fun r => r.2.2.1]
    error := st.velocity.error ++ [rows.map fun r => r.2.2.2] } }

/-- `parse_adcp.Parser._parse_corelation_magnitude_chunk(chunk)`:
`N = (len(chunk) - 2) / 4` cells, loop reads `N - 1` rows. -/
def adcp_parse_correlation_chunk (chunk : List Nat) (st : AdcpData) :
    Except String AdcpData :=
  let N := (chunk.length - 2) / 4
  let ids := pySlice chunk 0 2
  if ids.length ≠ 2 then .error "struct.error"
  else if readLE16 ids 0 ≠ 512 then .error "correlation_magnitude_id was not equal to 512"
  else
    match adcpReadRows4B chunk 0 (N - 1) with
    | .error e => .error e
    | .ok rows =>
      .ok { st with correlation := { st.correlation with
    magnitude_beam1 := st.correlation.magnitude_beam1 ++ [rows.map fun r => r.1]
    magnitude_beam2 := st.correlation.magnitude_beam2 ++ [rows.map fun r => r.2.1]
    magnitude_beam3 := st.correlation.magnitude_beam3 ++ [rows.map fun r => r.2.2.1]
    magnitude_beam4 := st.correlation.magnitude_beam4 ++ [rows.map fun r => r.2.2.2] } }

/-- `parse_adcp.Parser._parse_echo_intensity_chunk(chunk)`. -/
def adcp_parse_echo_chunk (chunk : List Nat) (st : AdcpData) :
    Except String AdcpData :=
  let N := (chunk.length - 2) / 4
  let ids := pySlice chunk 0 2
  if ids.length ≠ 2 then .error "struct.error"
  else if readLE16 ids 0 ≠ 768 then .error "echo_intensity_id was not equal to 768"
  else
    match adcpReadRows4B chunk 0 (N - 1) with
    | .error e => .error e
    | .ok rows =>
      .ok { st with echo := { st.echo with
    intensity_beam1 := st.echo.intensity_beam1 ++ [rows.map fun r => r.1]
    intensity_beam2 := st.echo.intensity_beam2 ++ [rows.map fun r => r.2.1]
    intensity_beam3 := st.echo.intensity_beam3 ++ [rows.map fun r => r.2.2.1]
    intensity_beam4 := st.echo.intensity_beam4 ++ [rows.map fun r => r.2.2.2] } }

/-- `parse_adcp.Parser._parse_percent_good_chunk(chunk)`. -/
def adcp_parse_percent_chunk (chunk : List Nat) (st : AdcpData) :
    Except String AdcpData :=
  let N := (chunk.length - 2) / 4
  let ids := pySlice chunk 0 2
  if ids.length ≠ 2 then .error "struct.error"
  else if readLE16 ids 0 ≠ 1024 then .error "percent_good_id was not equal to 1024"
  else
    match adcpReadRows4B chunk 0 (N - 1) with
    | .error e => .error e
    | .ok rows =>
      .ok { st with percent := { st.percent with
    good_3beam := st.percent.good_3beam ++ [rows.map fun r => r.1]
    transforms_reject := st.percent.transforms_reject ++ [rows.map fun r => r.2.1]
    bad_beams := st.percent.bad_beams ++ [rows.map fun r => r.2.2.1]
    good_4beam := st.percent.good_4beam ++ [rows.map fun r => r.2.2.2] } }

/-- The `while nDT <= num_data_types` loop of `_build_parsed_values`:
read `count` 16-bit LE offsets starting at byte `strt`. -/
def adcpReadOffsets (ensemble : List Nat) : Nat → Nat → Except String (List Nat)
  | _strt, 0 => .ok []
  | strt, k + 1 =>
    let s := pySlice ensemble strt (strt + 2)
    if s.length ≠ 2 then .error "struct.error"
    else
      match adcpReadOffsets ensemble (strt + 2) k with
      | .error e => .error e
      | .ok rest => .ok (readLE16 s 0 :: rest)

/-- The `for offset in offsets` loop of `_build_parsed_values`: dispatch on
the data-type id at each offset.  `iCells` models the local variable of the
same name: it is assigned when a fixed-leader chunk is parsed and reading
it before any assignment is an uncaught `NameError`.  An offset whose
data-type id matches none of the six known ids falls through with no
effect, exactly as the chain of independent `if` statements does. -/
def adcpProcessOffsets (ensemble : List Nat) :
    List Nat → Option Nat → AdcpData → Except String AdcpData
  | [], _iCells, st => .ok st
  | offset :: rest, iCells, st =>
    let s := pySlice ensemble offset (offset + 2)
    if s.length ≠ 2 then .error "struct.error"
    else
      let data_type := readLE16 s 0
      if data_type = 0 then
        match adcp_parse_fixed_chunk (pySlice ensemble offset (offset + 59)) st with
        | .error e => .error e
        | .ok (st', n) => adcpProcessOffsets ensemble rest (some n) st'
      else if data_type = 128 then
        match adcp_parse_variable_chunk (pySlice ensemble offset (offset + 65)) st with
        | .error e => .error e
        | .ok st' => adcpProcessOffsets ensemble rest iCells st'
      else if data_type = 256 then
        match iCells with
        | none => .error "NameError"
        | some n =>
          match adcp_parse_velocity_chunk (pySlice ensemble offset (offset + (2 + 8 * n))) st with
          | .error e => .error e
          | .ok st' => adcpProcessOffsets ensemble rest iCells st'
      else if data_type = 512 then
        match iCells with
        | none => .error "NameError"
        | some n =>
          match adcp_parse_correlation_chunk
              (pySlice ensemble offset (offset + (2 + 4 * n))) st with
          | .error e => .error e
          | .ok st' => adcpProcessOffsets ensemble rest iCells st'
      else if data_type = 768 then
        match iCells with
        | none => .error "NameError"
        | some n =>
          match adcp_parse_echo_chunk (pySlice ensemble offset (offset + (2 + 4 * n))) st with
          | .error e => .error e
          | .ok st' => adcpProcessOffsets ensemble rest iCells st'
      else if data_type = 1024 then
        match iCells with
        | none => .error "NameError"
        | some n =>
          match adcp_parse_percent_chunk (pySlice ensemble offset (offset + (2 + 4 * n))) st with
          | .error e => .error e
          | .ok st' => adcpProcessOffsets ensemble rest iCells st'
      else
        adcpProcessOffsets ensemble rest iCells st

/-- `parse_adcp.Parser._build_parsed_values(match)`: `ts` is regex group 1
(the DCL timestamp characters) and `ensemble` the `unhexlify` of groups 2-6
(so the declared length field sits at bytes 2-3).  The byte-sum checksum
over `range(0, length)` raises `IndexError` past the end of the ensemble;
a checksum mismatch raises the uncaught `Exception("Checksum mismatch")`. -/
def adcp_build (ts : List Char) (ensemble : List Nat) (st : AdcpData) :
    Except String AdcpData :=
  let length := readLE16 ensemble 2
  if ensemble.length < length then .error "IndexError"
  else
    let checksum := byteSum (pySlice ensemble 0 length) % 65536
    let expected := pySlice ensemble length (length + 2)
    if expected.length ≠ 2 then .error "struct.error"
    else if checksum ≠ readLE16 expected 0 then .error "Checksum mismatch"
    else
      let hdr := pySlice ensemble 0 6
      if hdr.length ≠ 6 then .error "struct.error"
      else
        match dcl_to_epoch ts with
        | none => .error "ValueError"
        | some t =>
          let st := { st with
            time := st.time ++ [t]
            header := { st.header with
              num_bytes := st.header.num_bytes ++ [readLE16 hdr 2]
              num_data_types := st.header.num_data_types ++ [u8 hdr 5] } }
          match adcpReadOffsets ensemble 6 (u8 hdr 5) with
          | .error e => .error e
          | .ok offsets => adcpProcessOffsets ensemble offsets none st

/-- `parse_adcp.Parser.parse_data`: iterate over the raw lines; a line is
either unmatched by the PD0 regex (`none`) and skipped, or matched and
handed to `_build_parsed_values` as its timestamp group and ensemble
bytes.  An exception raised by any frame propagates and aborts the loop. -/
def adcp_parse_data : List (Option (List Char × List Nat)) → AdcpData → Except String AdcpData
  | [], st => .ok st
  | none :: rest, st => adcp_parse_data rest st
  | some (ts, ens) :: rest, st =>
    match adcp_build ts ens st with
    | .error e => .error e
    | .ok st' => adcp_parse_data rest st'

/-- Every column of the table has `n` rows. -/
def adcpHeaderUniform (t : AdcpHeaderT) (n : Nat) : Prop :=
  t.num_bytes.length = n ∧
  t.num_data_types.length = n

/-- Every column of the table has `n` rows. -/
def adcpFixedUniform (t : AdcpFixedT) (n : Nat) : Prop :=
  t.firmware_version.length = n ∧
  t.firmware_revision.length = n ∧
  t.sysconfig_frequency.length = n ∧
  t.sysconfig_beam_pattern.length = n ∧
  t.sysconfig_sensor_config.length = n ∧
  t.sysconfig_head_attached.length = n ∧
  t.sysconfig_vertical_orientation.length = n ∧
  t.data_flag.length = n ∧
  t.lag_length.length = n ∧
  t.num_beams.length = n ∧
  t.num_cells.length = n ∧
  t.pings_per_ensemble.length = n ∧
  t.depth_cell_length.length = n ∧
  t.blank_after_transmit.length = n ∧
  t.signal_processing_mode.length = n ∧
  t.low_corr_threshold.length = n ∧
  t.num_code_repetitions.length = n ∧
  t.percent_good_min.length = n ∧
  t.error_vel_threshold.length = n ∧
  t.time_per_ping_minutes.length = n ∧
  t.time_per_ping_seconds.length = n ∧
  t.coord_transform_type.length = n ∧
  t.coord_transform_tilts.length = n ∧
  t.coord_transform_beams.length = n ∧
  t.coord_transform_mapping.length = n ∧
  t.heading_alignment.length = n ∧
  t.heading_bias.length = n ∧
  t.sensor_source_speed.length = n ∧
  t.sensor_source_depth.length = n ∧
  t.sensor_source_heading.length = n ∧
  t.sensor_source_pitch.length = n ∧
  t.sensor_source_roll.length = n ∧
  t.sensor_source_conductivity.length = n ∧
  t.sensor_source_temperature.length = n ∧
  t.sensor_available_depth.length = n ∧
  t.sensor_available_heading.length = n ∧
  t.sensor_available_pitch.length = n ∧
  t.sensor_available_roll.length = n ∧
  t.sensor_available_conductivity.length = n ∧
  t.sensor_available_temperature.length = n ∧
  t.bin_1_distance.length = n ∧
  t.transmit_pulse_length.length = n ∧
  t.reference_layer_start.length = n ∧
  t.reference_layer_stop.length = n ∧
  t.false_target_threshold.length = n ∧
  t.transmit_lag_distance.length = n ∧
  t.system_bandwidth.length = n ∧
  t.serial_number.length = n ∧
  t.beam_angle.length = n

/-- Every column of the table has `n` rows. -/
def adcpVariableUniform (t : AdcpVariableT) (n : Nat) : Prop :=
  t.ensemble_number.length = n ∧
  t.ensemble_number_increment.length = n ∧
  t.real_time_clock1.length = n ∧
  t.bit_result_demod_1.length = n ∧
  t.bit_result_demod_2.length = n ∧
  t.bit_result_timing.length = n ∧
  t.speed_of_sound.length = n ∧
  t.transducer_depth.length = n ∧
  t.heading.length = n ∧
  t.pitch.length = n ∧
  t.roll.length = n ∧
  t.salinity.length = n ∧
  t.temperature.length = n ∧
  t.mpt_minutes.length = n ∧
  t.mpt_seconds.length = n ∧
  t.heading_stdev.length = n ∧
  t.pitch_stdev.length = n ∧
  t.roll_stdev.length = n ∧
  t.adc_transmit_current.length = n ∧
  t.adc_transmit_voltage.length = n ∧
  t.adc_ambient_temp.length = n ∧
  t.adc_pressure_plus.length = n ∧
  t.adc_pressure_minus.length = n ∧
  t.adc_attitude_temp.length = n ∧
  t.adc_attitude.length = n ∧
  t.adc_contamination_sensor.length = n ∧
  t.bus_error_exception.length = n ∧
  t.address_error_exception.length = n ∧
  t.illegal_instruction_exception.length = n ∧
  t.zero_divide_instruction.length = n ∧
  t.emulator_exception.length = n ∧
  t.unassigned_exception.length = n ∧
  t.watchdog_restart_occurred.length = n ∧
  t.battery_saver_power.length = n ∧
  t.pinging.length = n ∧
  t.cold_wakeup_occurred.length = n ∧
  t.unknown_wakeup_occurred.length = n ∧
  t.clock_read_error.length = n ∧
  t.unexpected_alarm.length = n ∧
  t.clock_jump_forward.length = n ∧
  t.clock_jump_backward.length = n ∧
  t.power_fail.length = n ∧
  t.spurious_dsp_interrupt.length = n ∧
  t.spurious_uart_interrupt.length = n ∧
  t.spurious_clock_interrupt.length = n ∧
  t.level_7_interrupt.length = n ∧
  t.pressure.length = n ∧
  t.pressure_variance.length = n ∧
  t.real_time_clock2.length = n

/-- Every column of the table has `n` rows. -/
def adcpVelocityUniform (t : AdcpVelocityT) (n : Nat) : Prop :=
  t.eastward.length = n ∧
  t.northward.length = n ∧
  t.vertical.length = n ∧
  t.error.length = n

/-- Every column of the table has `n` rows. -/
def adcpCorrelationUniform (t : AdcpCorrelationT) (n : Nat) : Prop :=
  t.magnitude_beam1.length = n ∧
  t.magnitude_beam2.length = n ∧
  t.magnitude_beam3.length = n ∧
  t.magnitude_beam4.length = n

/-- Every column of the table has `n` rows. -/
def adcpEchoUniform (t : AdcpEchoT) (n : Nat) : Prop :=
  t.intensity_beam1.length = n ∧
  t.intensity_beam2.length = n ∧
  t.intensity_beam3.length = n ∧
  t.intensity_beam4.length = n

/-- Every column of the table has `n` rows. -/
def adcpPercentUniform (t : AdcpPercentT) (n : Nat) : Prop :=
  t.good_3beam.length = n ∧
  t.transforms_reject.length = n ∧
  t.bad_beams.length = n ∧
  t.good_4beam.length = n
/-- The row-alignment invariant of the spec: every column of every subtype
table has exactly as many rows as the top-level `time` column. -/
def adcpAligned (st : AdcpData) : Prop :=
  adcpHeaderUniform st.header st.time.length ∧
  adcpFixedUniform st.fixed st.time.length ∧
  adcpVariableUniform st.variable_leader st.time.length ∧
  adcpVelocityUniform st.velocity st.time.length ∧
  adcpCorrelationUniform st.correlation st.time.length ∧
  adcpEchoUniform st.echo st.time.length ∧
  adcpPercentUniform st.percent st.time.length

/-- The data-type ids found at the given offsets of an ensemble. -/
def adcpDataTypes (ensemble : List Nat) (offsets : List Nat) : List Nat :=
  offsets.map fun o => readLE16 (pySlice ensemble o (o + 2)) 0

/-- A well-formed PD0 ensemble for the row-alignment claim: the offset table
can be read, and among the data-type ids it points at, each of the six
decoded ids (fixed 0, variable 128, velocity 256, correlation 512, echo 768,
percent-good 1024) occurs exactly once. -/
def adcpWellFormed (ensemble : List Nat) : Prop :=
  match adcpReadOffsets ensemble 6 (u8 (pySlice ensemble 0 6) 5) with
  | .error _ => False
  | .ok offsets =>
    (adcpDataTypes ensemble offsets).count 0 = 1 ∧
    (adcpDataTypes ensemble offsets).count 128 = 1 ∧
    (adcpDataTypes ensemble offsets).count 256 = 1 ∧
    (adcpDataTypes ensemble offsets).count 512 = 1 ∧
    (adcpDataTypes ensemble offsets).count 768 = 1 ∧
    (adcpDataTypes ensemble offsets).count 1024 = 1


/-- A concrete well-formed 172-byte PD0 ensemble: declared length 170, six
data types with offset table [18, 77, 142, 152, 158, 164] pointing at one
fixed-leader, variable-leader, velocity, correlation, echo and percent-good
chunk each (`num_cells` = 1), and a valid trailing byte-sum checksum. -/
def adcpWitEns : List Nat :=
  [127, 127, 170, 0, 0, 6, 18, 0, 77, 0, 142, 0, 152, 0, 158, 0, 164, 0, 0,
   0, 0, 0, 0, 0, 0, 0, 4, 1, 0, 0, 0, 0, 0, 0, 1, 0, 0, 0, 0, 0, 0, 0, 0, 0,
   0, 0, 0, 0, 0, 0, 0, 0, 0, 0, 0, 0, 0, 0, 0, 0, 0, 0, 0, 0, 0, 0, 0, 0, 0,
   0, 0, 0, 0, 0, 0, 0, 0, 128, 0, 0, 0, 0, 0, 0, 0, 0, 0, 0, 0, 0, 0, 0, 0,
   0, 0, 0, 0, 0, 0, 0, 0, 0, 0, 0, 0, 0, 0, 0, 0, 0, 0, 0, 0, 0, 0, 0, 0, 0,
   0, 0, 0, 0, 0, 0, 0, 0, 0, 0, 0, 0, 0, 0, 0, 0, 0, 0, 0, 0, 0, 0, 0, 0, 0,
   1, 0, 0, 0, 0, 0, 0, 0, 0, 0, 2, 0, 0, 0, 0, 0, 3, 0, 0, 0, 0, 0, 4, 0, 0,
   0, 0, 5, 5]

/-- The DCL timestamp characters of the witness frame. -/
def adcpWitTs : List Char :=
  ['2', '0', '1', '6', '/', '0', '1', '/', '1', '5', ' ',
   '1', '0', ':', '3', '0', ':', '4', '5', '.', '0', '0', '0']

end Cgsn

/-! ## Theorems settling the claims -/

namespace Cgsn

/-- C7: for every byte whose two nibbles are decimal digits, `_convert_bcd`
followed by canonical BCD re-encoding is the identity; a byte exceeding
0x99 is clamped to 0x99 and so converts to 99, in particular 0x9F does. -/
theorem bcd_round_trip_and_clamp (b c : Nat) (hhi : b / 16 ≤ 9) (hlo : b % 16 ≤ 9)
    (hc : 0x99 < c) :
    int_to_bcd (convert_bcd b) = b ∧ convert_bcd c = 99 ∧ convert_bcd 0x9F = 99 := by
  refine ⟨?_, ?_, by decide⟩
  · have hb : b ≤ 153 := by omega
    simp only [convert_bcd, int_to_bcd, min_eq_left hb]
    omega
  · simp only [convert_bcd, min_eq_right (le_of_lt hc)]

/-- Witness for C7 at `b = 0x95`, `c = 0x9A`. -/
theorem bcd_round_trip_and_clamp_witness :
    (0x95 / 16 ≤ 9 ∧ 0x95 % 16 ≤ 9 ∧ 0x99 < 0x9A) ∧
    (int_to_bcd (convert_bcd 0x95) = 0x95 ∧ convert_bcd 0x9A = 99 ∧ convert_bcd 0x9F = 99) :=
  ⟨by decide, bcd_round_trip_and_clamp 0x95 0x9A (by decide) (by decide) (by decide)⟩

/-- C2 (ADCP side, failing input): on an 18-byte velocity chunk the fixed
leader sized for `num_cells = 2` (`N = (18 - 2) / 2 / 4 = 2`), the loop
`for row in range(1, N)` stores only one value per beam, dropping the last
depth cell, where the claim requires exactly `num_cells = 2` values. -/
theorem adcp_velocity_chunk_drops_last_cell :
    (adcp_parse_velocity_chunk
        [0, 1, 1, 0, 2, 0, 3, 0, 4, 0, 5, 0, 6, 0, 7, 0, 8, 0] {}).map
        (fun st => ((st.velocity.eastward.getD 0 []).length,
                    (st.velocity.northward.getD 0 []).length,
                    (st.velocity.vertical.getD 0 []).length,
                    (st.velocity.error.getD 0 []).length)) = .ok (1, 1, 1, 1) ∧
    (([0, 1, 1, 0, 2, 0, 3, 0, 4, 0, 5, 0, 6, 0, 7, 0, 8, 0] : List Nat).length - 2) / 2 / 4
      = 2 := by
  decide

/-- C10: whenever a MOPAK packet passes size and checksum validation, the
columns `magnetometer_y` and `magnetometer_z` both receive the `f` field at
byte offset 33 — the unpacked z-axis magnetometer — so the y-axis value
(offset 29) is never stored. -/
theorem mopak_magnetometer_y_gets_z (packet : List Nat) (epts : ℚ) (st st' : MopakData)
    (h : mopak_build packet epts st = .ok (st', true)) :
    st'.magnetometer_y = st.magnetometer_y ++ [readBE32 packet 33] ∧
    st'.magnetometer_z = st.magnetometer_z ++ [readBE32 packet 33] := by
  unfold mopak_build at h
  split at h
  · simp at h
  · split at h
    · simp at h
    · simp only [pure, Except.pure, Except.ok.injEq, Prod.mk.injEq] at h
      obtain ⟨h1, -⟩ := h
      subst h1
      exact ⟨rfl, rfl⟩

end Cgsn

namespace Cgsn

/-- Witness for C10: a concrete 43-byte packet with distinct y-axis
(1.0f, bytes 63 128 0 0) and z-axis (2.0f, bytes 64 0 0 0) magnetometer
fields and a valid checksum; both output columns receive the z-axis
pattern 0x40000000. -/
theorem mopak_magnetometer_y_gets_z_witness :
    mopak_build
      [203, 0, 0, 0, 0, 0, 0, 0, 0, 0, 0, 0, 0, 0, 0, 0, 0, 0, 0, 0, 0, 0, 0, 0, 0,
       0, 0, 0, 0, 63, 128, 0, 0, 64, 0, 0, 0, 0, 0, 1, 44, 1, 247] 0
      {} = .ok ({ time := [3 / 625]
                  acceleration_x := [0], acceleration_y := [0], acceleration_z := [0]
                  angular_rate_x := [0], angular_rate_y := [0], angular_rate_z := [0]
                  magnetometer_x := [0], magnetometer_y := [1073741824]
                  magnetometer_z := [1073741824], timer := [3 / 625] }, true) ∧
    ({ time := [3 / 625]
       acceleration_x := [0], acceleration_y := [0], acceleration_z := [0]
       angular_rate_x := [0], angular_rate_y := [0], angular_rate_z := [0]
       magnetometer_x := [0], magnetometer_y := [1073741824]
       magnetometer_z := [1073741824], timer := [3 / 625] } : MopakData).magnetometer_y =
        ({} : MopakData).magnetometer_y ++
          [readBE32 [203, 0, 0, 0, 0, 0, 0, 0, 0, 0, 0, 0, 0, 0, 0, 0, 0, 0, 0, 0, 0, 0,
            0, 0, 0, 0, 0, 0, 0, 63, 128, 0, 0, 64, 0, 0, 0, 0, 0, 1, 44, 1, 247] 33] ∧
    ({ time := [3 / 625]
       acceleration_x := [0], acceleration_y := [0], acceleration_z := [0]
       angular_rate_x := [0], angular_rate_y := [0], angular_rate_z := [0]
       magnetometer_x := [0], magnetometer_y := [1073741824]
       magnetometer_z := [1073741824], timer := [3 / 625] } : MopakData).magnetometer_z =
        ({} : MopakData).magnetometer_z ++
          [readBE32 [203, 0, 0, 0, 0, 0, 0, 0, 0, 0, 0, 0, 0, 0, 0, 0, 0, 0, 0, 0, 0, 0,
            0, 0, 0, 0, 0, 0, 0, 63, 128, 0, 0, 64, 0, 0, 0, 0, 0, 1, 44, 1, 247] 33] := by
  have h : mopak_build
      [203, 0, 0, 0, 0, 0, 0, 0, 0, 0, 0, 0, 0, 0, 0, 0, 0, 0, 0, 0, 0, 0, 0, 0, 0,
       0, 0, 0, 0, 63, 128, 0, 0, 64, 0, 0, 0, 0, 0, 1, 44, 1, 247] 0
      {} = .ok ({ time := [3 / 625]
                  acceleration_x := [0], acceleration_y := [0], acceleration_z := [0]
                  angular_rate_x := [0], angular_rate_y := [0], angular_rate_z := [0]
                  magnetometer_x := [0], magnetometer_y := [1073741824]
                  magnetometer_z := [1073741824], timer := [3 / 625] }, true) := by
    simp +decide [mopak_build, readBE32, readBE16, u8, pySlice, mopak_calc_checksum, byteSum]
    norm_num
  exact ⟨h, mopak_magnetometer_y_gets_z _ _ _ _ h⟩

/-- C4 (counterexample): on a first packet declaring record length 71 but
nwave 5 (5 ≠ (71 − 32) / 8 = 4), `parse_data` raises rather than skipping,
so the run aborts with an exception. -/
theorem optaa_nwave_mismatch_raises_cx :
    optaa_parse_data
      ⟨[255, 0, 255, 0], [0, 71], [3], [1], [83], [0], [0, 1], [0, 0], [0, 0], [0, 0],
       [0, 0], [0, 0], [0, 0], [0, 0], [0, 0, 0, 0], [1], [5], [], [0, 0], [0]⟩
      [] 0 = .error "optaa data packet: record length does not match nwave." := by
  rfl

/-- C4 (amended): whenever the first packet's nwave byte differs from
`(record_length - 32) / 8` (Python floor division), the OPTAA decoder
raises `Exception(...)`, aborting the entire parse — the frame is not
skipped and no further packet is scanned. -/
theorem optaa_nwave_mismatch_fatal (packet0 : AcsPacket) (packets : List AcsPacket) (epts : ℚ)
    (rl nw : Nat) (hrl : unpackBE16 packet0.recLen = .ok rl)
    (hnw : unpackU8 packet0.nwaveB = .ok nw)
    (hm : (nw : Int) ≠ ((rl : Int) - 32).fdiv 8) :
    optaa_parse_data packet0 packets epts =
      .error "optaa data packet: record length does not match nwave." := by
  unfold optaa_parse_data
  rw [hrl, hnw]
  simp [hm]

/-- Witness for C4 at record length 71, nwave 5. -/
theorem optaa_nwave_mismatch_fatal_witness :
    (unpackBE16 ([0, 71] : List Nat) = .ok 71 ∧ unpackU8 ([5] : List Nat) = .ok 5 ∧
      ((5 : Nat) : Int) ≠ (((71 : Nat) : Int) - 32).fdiv 8) ∧
    optaa_parse_data
      ⟨[255, 0, 255, 0], [0, 71], [3], [1], [83], [0], [0, 1], [0, 0], [0, 0], [0, 0],
       [0, 0], [0, 0], [0, 0], [0, 0], [0, 0, 0, 0], [1], [5], [], [0, 0], [0]⟩
      [] 0 = .error "optaa data packet: record length does not match nwave." :=
  ⟨⟨by decide, by decide, by decide⟩,
    optaa_nwave_mismatch_fatal _ [] 0 71 5 (by decide) (by decide) (by decide)⟩

/-- C1 (counterexample): a stream whose first candidate ADCP frame fails
checksum validation makes `parse_data` raise `Exception("Checksum
mismatch")`; the second candidate frame is never scanned, so a single
malformed frame aborts decoding of the remainder of the stream. -/
theorem adcp_checksum_mismatch_aborts_scan_cx :
    adcp_parse_data
      [some ("2016/01/15 10:30:00.000".toList, [0x7F, 0x7F, 6, 0, 0, 6, 0, 0]),
       some ("2016/01/15 10:30:00.000".toList, [0x7F, 0x7F, 6, 0, 0, 6, 0, 0])]
      {} = .error "Checksum mismatch" := by
  rfl

/-- C1 (amended): checksum-failure handling is format-specific.  In the
ADCP decoder a checksum mismatch raises an uncaught exception that aborts
`parse_data` for the whole stream; in the VEL3D decoder a system packet
failing validation yields `False`, the packet is skipped, and the scan
continues with the next system marker (provided an earlier system packet
has been parsed, so that the `[-1]` time lookup succeeds). -/
theorem checksum_failure_skip_vs_abort
    (ts : List Char) (ens : List Nat) (st : AdcpData)
    (rest : List (Option (List Char × List Nat)))
    (hlen : readLE16 ens 2 ≤ ens.length)
    (hexp : (pySlice ens (readLE16 ens 2) (readLE16 ens 2 + 2)).length = 2)
    (hbad : byteSum (pySlice ens 0 (readLE16 ens 2)) % 65536 ≠
      readLE16 (pySlice ens (readLE16 ens 2) (readLE16 ens 2 + 2)) 0)
    (raw : List Nat) (rate : ℚ) (start : Nat) (srest vels : List Nat) (vst : Vel3dData)
    (hsys : vel3d_build_system (pySlice raw start (start + 28)) vst = .ok (vst, false))
    (hne : vst.system.time ≠ []) :
    adcp_parse_data (some (ts, ens) :: rest) st = .error "Checksum mismatch" ∧
    vel3d_outer raw rate (start :: srest) vels vst = vel3d_outer raw rate srest vels vst := by
  constructor
  · have hb : adcp_build ts ens st = .error "Checksum mismatch" := by
      unfold adcp_build
      rw [if_neg (by omega : ¬ ens.length < readLE16 ens 2), if_neg (by simp [hexp]),
        if_pos hbad]
    simp [adcp_parse_data, hb]
  · obtain ⟨t, ht⟩ : ∃ t, vst.system.time.getLast? = some t := by
      cases h : vst.system.time.getLast? with
      | none => exact absurd (List.getLast?_eq_none_iff.mp h) hne
      | some t => exact ⟨t, rfl⟩
    conv_lhs => rw [vel3d_outer.eq_def]
    dsimp only
    rw [hsys]
    dsimp only
    rw [ht]
    simp

/-- Witness for C1: the malformed 8-byte candidate frame of the
counterexample for the ADCP half, and a 28-byte system packet with a wrong
checksum against a sink that already holds one system record for the VEL3D
half. -/
theorem checksum_failure_skip_vs_abort_witness :
    (readLE16 [0x7F, 0x7F, 6, 0, 0, 6, 0, 0] 2 ≤
        ([0x7F, 0x7F, 6, 0, 0, 6, 0, 0] : List Nat).length ∧
      (pySlice [0x7F, 0x7F, 6, 0, 0, 6, 0, 0] (readLE16 [0x7F, 0x7F, 6, 0, 0, 6, 0, 0] 2)
        (readLE16 [0x7F, 0x7F, 6, 0, 0, 6, 0, 0] 2 + 2)).length = 2 ∧
      vel3d_build_system
        (pySlice ([0xa5, 0x11, 14, 0] ++ List.replicate 24 0) 0 (0 + 28))
        { system := { time := [0] } } = .ok ({ system := { time := [0] } }, false)) ∧
    (adcp_parse_data
        [some ("2016/01/15 10:30:00.000".toList, [0x7F, 0x7F, 6, 0, 0, 6, 0, 0])]
        {} = .error "Checksum mismatch" ∧
      vel3d_outer ([0xa5, 0x11, 14, 0] ++ List.replicate 24 0) 8 [0] []
          { system := { time := [0] } } =
        vel3d_outer ([0xa5, 0x11, 14, 0] ++ List.replicate 24 0) 8 [] []
          { system := { time := [0] } }) :=
  ⟨⟨by decide, by decide, by decide⟩,
    checksum_failure_skip_vs_abort _ _ _ [] (by decide) (by decide) (by decide)
      _ 8 0 [] [] _ (by decide) (by decide)⟩

end Cgsn

namespace Cgsn

/-- Inversion of `mopak_build`: a non-raising call appends the packet time
exactly when the checksum test passed, and otherwise leaves `time` alone. -/
theorem mopak_build_time (p : List Nat) (epts : ℚ) (st st1 : MopakData) (b : Bool)
    (h : mopak_build p epts st = .ok (st1, b)) :
    st1.time = st.time ++
      (if mopakCkOK p then [epts + (readBE32 p 37 : ℚ) / 62500] else []) := by
  unfold mopak_build at h
  split at h
  · simp at h
  · split at h
    · rename_i hck
      rw [if_neg (by simpa [mopakCkOK] using hck)]
      simp only [Except.ok.injEq, Prod.mk.injEq] at h
      rw [← h.1]
      simp
    · rename_i hck
      rw [if_pos (by simpa [mopakCkOK] using not_not.mp hck)]
      simp only [Except.ok.injEq, Prod.mk.injEq] at h
      rw [← h.1]

/-- The MOPAK packet loop appends one time entry per checksum-passing
43-byte slice, in order. -/
theorem mopak_loop_time (raw : List Nat) (epts : ℚ) :
    ∀ (markers : List Nat) (st st' : MopakData),
      mopak_parse_loop raw epts markers st = .ok st' →
      st'.time = st.time ++
        (((markers.map fun s => pySlice raw s (s + 43)).filter mopakCkOK).map
          fun p => epts + (readBE32 p 37 : ℚ) / 62500)
  | [], st, st', h => by
    simp only [mopak_parse_loop, Except.ok.injEq] at h
    simp [← h]
  | start :: rest, st, st', h => by
    unfold mopak_parse_loop at h
    cases hb : mopak_build (pySlice raw start (start + 43)) epts st with
    | error e => rw [hb] at h; simp at h
    | ok pr =>
      obtain ⟨st1, b⟩ := pr
      rw [hb] at h
      have ih := mopak_loop_time raw epts rest st1 st' h
      have hbt := mopak_build_time _ _ _ _ _ hb
      rw [ih, hbt]
      by_cases hck : mopakCkOK (pySlice raw start (start + 43)) = true <;>
        simp [hck, List.filter_cons, List.append_assoc]


/-- Inversion of `optaa_build`: a successful build appends exactly
`time0 + time_msec / 1000` to the time column. -/
theorem optaa_build_time (p : AcsPacket) (nwave : Nat) (time0 : ℚ) (st st' : OptaaData)
    (h : optaa_build p nwave time0 st = .ok st') :
    st'.time = st.time ++ [time0 + (readBE32 p.timeMs 0 : ℚ) / 1000] := by
  unfold optaa_build at h
  cases h14 : unpackBE32 p.timeMs with
  | error e => rw [h14] at h; simp at h
  | ok tms =>
    rw [h14] at h
    have htms : tms = readBE32 p.timeMs 0 := by
      unfold unpackBE32 at h14
      split at h14
      · exact (Except.ok.inj h14).symm
      · simp at h14
    subst htms
    cases h17 : unpackBE16s p.body (4 * nwave) with
    | error e => rw [h17] at h; simp at h
    | ok optical =>
      rw [h17] at h
      dsimp only at h
      split at h
      · simp only [Except.ok.injEq] at h
        rw [← h]
      · simp at h

/-- The OPTAA packet loop appends one time entry per checksum-passing
packet, in order. -/
theorem optaa_loop_time (nwave : Nat) (time0 : ℚ) :
    ∀ (packets : List AcsPacket) (st st' : OptaaData),
      optaa_parse_loop nwave time0 packets st = .ok st' →
      st'.time = st.time ++
        ((packets.filter acs_checksum_agreement).map
          fun p => time0 + (readBE32 p.timeMs 0 : ℚ) / 1000)
  | [], st, st', h => by
    simp only [optaa_parse_loop, Except.ok.injEq] at h
    simp [← h]
  | q :: rest, st, st', h => by
    rw [show optaa_parse_loop nwave time0 (q :: rest) st =
        (if acs_checksum_agreement q then
          match optaa_build q nwave time0 st with
          | .error e => .error e
          | .ok st1 => optaa_parse_loop nwave time0 rest st1
        else optaa_parse_loop nwave time0 rest st) from rfl] at h
    by_cases hck : acs_checksum_agreement q = true
    · rw [if_pos hck] at h
      cases hb : optaa_build q nwave time0 st with
      | error e => rw [hb] at h; simp at h
      | ok st1 =>
        rw [hb] at h
        have ih := optaa_loop_time nwave time0 rest st1 st' h
        have hbt := optaa_build_time _ _ _ _ _ hb
        rw [ih, hbt]
        simp [hck, List.filter_cons, List.append_assoc]
    · rw [if_neg hck] at h
      have ih := optaa_loop_time nwave time0 rest st st' h
      rw [ih]
      simp [List.filter_cons, hck]

end Cgsn

namespace Cgsn

/-- C3 (amended): the two strategy-B decoders do not share one formula.
MOPAK computes each record time as `T0 + twake + timer / 62500.` — the
timer field is in 1/62500-second ticks, no first-frame zero-reference is
kept.  OPTAA computes each record time as
`T0 + (time_msec - first_time_msec) / 1000` — the first packet's elapsed
time is cached as the zero-reference, and no wake-latency constant is
added. -/
theorem elapsed_time_reconciliation_formulas
    (raw : List Nat) (markers : List Nat) (T0 : ℚ) (mst : MopakData)
    (hm : mopak_parse_data raw markers T0 = .ok mst)
    (packet0 : AcsPacket) (packets : List AcsPacket) (epts : ℚ) (t0 : Nat) (ost : OptaaData)
    (ht0 : unpackBE32 packet0.timeMs = .ok t0)
    (ho : optaa_parse_data packet0 packets epts = .ok ost) :
    mst.time = ((markers.map fun s => pySlice raw s (s + 43)).filter mopakCkOK).map
        (fun p => T0 + mopak_twake + (readBE32 p 37 : ℚ) / 62500) ∧
    ost.time = (packets.filter acs_checksum_agreement).map
        (fun p => epts + ((readBE32 p.timeMs 0 : ℚ) - (t0 : ℚ)) / 1000) := by
  constructor
  · have := mopak_loop_time raw (T0 + mopak_twake) markers {} mst hm
    simpa using this
  · unfold optaa_parse_data at ho
    cases hrl : unpackBE16 packet0.recLen with
    | error e => rw [hrl] at ho; simp at ho
    | ok rl =>
      rw [hrl] at ho
      cases hnw : unpackU8 packet0.nwaveB with
      | error e => rw [hnw] at ho; simp at ho
      | ok nw =>
        rw [hnw] at ho
        dsimp only at ho
        split at ho
        · simp at ho
        · rw [ht0] at ho
          dsimp only at ho
          have := optaa_loop_time nw (epts - (t0 : ℚ) / 1000) packets {} ost ho
          rw [this]
          simp only [OptaaData.time]
          rw [List.nil_append]
          apply List.map_congr_left
          intro p _
          ring

end Cgsn

namespace Cgsn

/-- C3 (counterexample): a MOPAK file created at epoch `T0 = 1000000`
holding two valid packets whose timer fields are 1000 and 1500.  The claim
says the second record's time must be `T0 + wake_latency + (1500 - 1000) /
1000 = T0 + twake + 0.5`; the decoder actually stores
`T0 + twake + 1500 / 62500 = T0 + twake + 0.024`. -/
theorem mopak_elapsed_time_formula_cx :
    (mopak_parse_data
        [203, 0, 0, 0, 0, 0, 0, 0, 0, 0, 0, 0, 0, 0, 0, 0, 0, 0, 0, 0, 0, 0, 0, 0, 0, 0, 0, 0, 0, 0, 0, 0, 0, 0, 0, 0, 0, 0, 0, 3, 232, 1, 182, 203, 0, 0, 0, 0, 0, 0, 0, 0, 0, 0, 0, 0, 0, 0, 0, 0, 0, 0, 0, 0, 0, 0, 0, 0, 0, 0, 0, 0, 0, 0, 0, 0, 0, 0, 0, 0, 0, 0, 5, 220, 1, 172]
        [0, 43] 1000000).map (fun st => st.time.getD 1 0) = .ok (1000000277 / 1000) ∧
    (1000000277 / 1000 : ℚ) ≠ 1000000 + mopak_twake + ((1500 : ℚ) - 1000) / 1000 := by
  constructor
  · simp +decide [mopak_parse_data, mopak_parse_loop, mopak_build, mopak_twake, readBE32,
      readBE16, u8, pySlice, mopak_calc_checksum, byteSum, Except.map]
    norm_num
  · norm_num [mopak_twake]

end Cgsn

namespace Cgsn

/-- Witness for C3 (amended) on the two-packet MOPAK stream of the
counterexample and a two-packet OPTAA stream (first-packet elapsed time
1000 ms, second 1500 ms). -/
theorem elapsed_time_reconciliation_formulas_witness :
    (mopak_parse_data
        [203, 0, 0, 0, 0, 0, 0, 0, 0, 0, 0, 0, 0, 0, 0, 0, 0, 0, 0, 0, 0, 0, 0, 0, 0, 0, 0, 0,
         0, 0, 0, 0, 0, 0, 0, 0, 0, 0, 0, 3, 232, 1, 182, 203, 0, 0, 0, 0, 0, 0, 0, 0, 0, 0, 0,
         0, 0, 0, 0, 0, 0, 0, 0, 0, 0, 0, 0, 0, 0, 0, 0, 0, 0, 0, 0, 0, 0, 0, 0, 0, 0, 0, 5,
         220, 1, 172]
        [0, 43] 1000000 = .ok
      ({ time := [1000000269 / 1000, 1000000277 / 1000]
         acceleration_x := [0, 0], acceleration_y := [0, 0], acceleration_z := [0, 0]
         angular_rate_x := [0, 0], angular_rate_y := [0, 0], angular_rate_z := [0, 0]
         magnetometer_x := [0, 0], magnetometer_y := [0, 0], magnetometer_z := [0, 0]
         timer := [2 / 125, 3 / 125] }) ∧
      unpackBE32 (AcsPacket.timeMs
        ⟨[255, 0, 255, 0], [0, 40], [3], [1], [83], [0], [0, 1], [0, 0], [0, 0], [0, 0],
        [0, 0], [0, 0], [0, 0], [0, 0], [0, 0, 3, 232], [1], [1],
        [0, 1, 0, 2, 0, 3, 0, 4], [3, 117], [0]⟩) = .ok 1000 ∧
      optaa_parse_data
        ⟨[255, 0, 255, 0], [0, 40], [3], [1], [83], [0], [0, 1], [0, 0], [0, 0], [0, 0],
        [0, 0], [0, 0], [0, 0], [0, 0], [0, 0, 3, 232], [1], [1],
        [0, 1, 0, 2, 0, 3, 0, 4], [3, 117], [0]⟩
        [⟨[255, 0, 255, 0], [0, 40], [3], [1], [83], [0], [0, 1], [0, 0], [0, 0], [0, 0],
        [0, 0], [0, 0], [0, 0], [0, 0], [0, 0, 5, 220], [1], [1],
        [0, 1, 0, 2, 0, 3, 0, 4], [3, 107], [0]⟩] 0 = .ok
      ({ time := [1 / 2], serial_number := [1], a_reference_dark_counts := [0]
         pressure_counts := [0], a_signal_dark_counts := [0]
         raw_external_temperature_counts := [0], raw_internal_temperature_counts := [0]
         c_reference_dark_counts := [0], c_signal_dark_counts := [0]
         time_msec_since_power_up := [1500], number_of_wavelengths := [1]
         cref_raw_counts := [[1]], aref_raw_counts := [[2]], csig_raw_counts := [[3]]
         asig_raw_counts := [[4]] })) ∧
    (({ time := [1000000269 / 1000, 1000000277 / 1000]
        acceleration_x := [0, 0], acceleration_y := [0, 0], acceleration_z := [0, 0]
        angular_rate_x := [0, 0], angular_rate_y := [0, 0], angular_rate_z := [0, 0]
        magnetometer_x := [0, 0], magnetometer_y := [0, 0], magnetometer_z := [0, 0]
        timer := [2 / 125, 3 / 125] } : MopakData).time =
        ((([0, 43].map fun s => pySlice
          [203, 0, 0, 0, 0, 0, 0, 0, 0, 0, 0, 0, 0, 0, 0, 0, 0, 0, 0, 0, 0, 0, 0, 0, 0, 0, 0, 0,
         0, 0, 0, 0, 0, 0, 0, 0, 0, 0, 0, 3, 232, 1, 182, 203, 0, 0, 0, 0, 0, 0, 0, 0, 0, 0, 0,
         0, 0, 0, 0, 0, 0, 0, 0, 0, 0, 0, 0, 0, 0, 0, 0, 0, 0, 0, 0, 0, 0, 0, 0, 0, 0, 0, 5,
         220, 1, 172]
          s (s + 43)).filter mopakCkOK).map
          fun p => 1000000 + mopak_twake + (readBE32 p 37 : ℚ) / 62500) ∧
      ({ time := [1 / 2], serial_number := [1], a_reference_dark_counts := [0]
         pressure_counts := [0], a_signal_dark_counts := [0]
         raw_external_temperature_counts := [0], raw_internal_temperature_counts := [0]
         c_reference_dark_counts := [0], c_signal_dark_counts := [0]
         time_msec_since_power_up := [1500], number_of_wavelengths := [1]
         cref_raw_counts := [[1]], aref_raw_counts := [[2]], csig_raw_counts := [[3]]
         asig_raw_counts := [[4]] } : OptaaData).time =
        (([⟨[255, 0, 255, 0], [0, 40], [3], [1], [83], [0], [0, 1], [0, 0], [0, 0], [0, 0],
        [0, 0], [0, 0], [0, 0], [0, 0], [0, 0, 5, 220], [1], [1],
        [0, 1, 0, 2, 0, 3, 0, 4], [3, 107], [0]⟩].filter acs_checksum_agreement).map
          fun p => 0 + ((readBE32 p.timeMs 0 : ℚ) - ((1000 : Nat) : ℚ)) / 1000)) := by
  have hm : mopak_parse_data
      [203, 0, 0, 0, 0, 0, 0, 0, 0, 0, 0, 0, 0, 0, 0, 0, 0, 0, 0, 0, 0, 0, 0, 0, 0, 0, 0, 0,
         0, 0, 0, 0, 0, 0, 0, 0, 0, 0, 0, 3, 232, 1, 182, 203, 0, 0, 0, 0, 0, 0, 0, 0, 0, 0, 0,
         0, 0, 0, 0, 0, 0, 0, 0, 0, 0, 0, 0, 0, 0, 0, 0, 0, 0, 0, 0, 0, 0, 0, 0, 0, 0, 0, 5,
         220, 1, 172]
      [0, 43] 1000000 = .ok
      ({ time := [1000000269 / 1000, 1000000277 / 1000]
         acceleration_x := [0, 0], acceleration_y := [0, 0], acceleration_z := [0, 0]
         angular_rate_x := [0, 0], angular_rate_y := [0, 0], angular_rate_z := [0, 0]
         magnetometer_x := [0, 0], magnetometer_y := [0, 0], magnetometer_z := [0, 0]
         timer := [2 / 125, 3 / 125] }) := by
    simp +decide [mopak_parse_data, mopak_parse_loop, mopak_build, mopak_twake, readBE32,
      readBE16, u8, pySlice, mopak_calc_checksum, byteSum]
    norm_num
  have ht0 : unpackBE32 (AcsPacket.timeMs
      ⟨[255, 0, 255, 0], [0, 40], [3], [1], [83], [0], [0, 1], [0, 0], [0, 0], [0, 0],
        [0, 0], [0, 0], [0, 0], [0, 0], [0, 0, 3, 232], [1], [1],
        [0, 1, 0, 2, 0, 3, 0, 4], [3, 117], [0]⟩) = .ok 1000 := by decide
  have ho : optaa_parse_data
      ⟨[255, 0, 255, 0], [0, 40], [3], [1], [83], [0], [0, 1], [0, 0], [0, 0], [0, 0],
        [0, 0], [0, 0], [0, 0], [0, 0], [0, 0, 3, 232], [1], [1],
        [0, 1, 0, 2, 0, 3, 0, 4], [3, 117], [0]⟩
      [⟨[255, 0, 255, 0], [0, 40], [3], [1], [83], [0], [0, 1], [0, 0], [0, 0], [0, 0],
        [0, 0], [0, 0], [0, 0], [0, 0], [0, 0, 5, 220], [1], [1],
        [0, 1, 0, 2, 0, 3, 0, 4], [3, 107], [0]⟩] 0 = .ok
      ({ time := [1 / 2], serial_number := [1], a_reference_dark_counts := [0]
         pressure_counts := [0], a_signal_dark_counts := [0]
         raw_external_temperature_counts := [0], raw_internal_temperature_counts := [0]
         c_reference_dark_counts := [0], c_signal_dark_counts := [0]
         time_msec_since_power_up := [1500], number_of_wavelengths := [1]
         cref_raw_counts := [[1]], aref_raw_counts := [[2]], csig_raw_counts := [[3]]
         asig_raw_counts := [[4]] }) := by
    simp +decide [optaa_parse_data, optaa_parse_loop, optaa_build, unpackBE16, unpackU8,
      unpackBE32, unpackBE16s, acs_checksum_agreement, acsJoin17, byteSum, readBE16,
      readBE32, u8, pyStride4]
    norm_num
  exact ⟨⟨hm, ht0, ho⟩, elapsed_time_reconciliation_formulas _ _ _ _ hm _ _ _ _ _ ht0 ho⟩

end Cgsn

namespace Cgsn

/-- C8: both BCD-clock decoders apply the century pivot to the two-digit
year read from the frame (raw year ≥ 90 maps to the 1900s, below 90 to the
2000s), and the pivoted year flows into the record's date array and its
epoch timestamp; in particular raw year 0x95 gives 1995 and raw 0x05 gives
2005. -/
theorem bcd_century_pivot
    (packet : List Nat) (r : AquadoppRec)
    (hp : velpt_parse_aquadopp packet = .ok (some r))
    (sys : List Nat) (vst vst' : Vel3dData)
    (hs : vel3d_build_system sys vst = .ok (vst', true)) :
    (r.date_time_array.head? = some (nortek_pivot_year (u8 packet 8)) ∧
      r.epts = timegm (nortek_pivot_year (u8 packet 8)) (convert_bcd (u8 packet 9))
        (convert_bcd (u8 packet 6)) (convert_bcd (u8 packet 7))
        (convert_bcd (u8 packet 4)) (convert_bcd (u8 packet 5))) ∧
    (vst'.system.date_time_array.getLast? = some
        [nortek_pivot_year (u8 sys 8), convert_bcd (u8 sys 9), convert_bcd (u8 sys 6),
          convert_bcd (u8 sys 7), convert_bcd (u8 sys 4), convert_bcd (u8 sys 5)] ∧
      vst'.system.time.getLast? = some
        (timegm (nortek_pivot_year (u8 sys 8)) (convert_bcd (u8 sys 9))
          (convert_bcd (u8 sys 6)) (convert_bcd (u8 sys 7)) (convert_bcd (u8 sys 4))
          (convert_bcd (u8 sys 5)))) ∧
    nortek_pivot_year 0x95 = 1995 ∧ nortek_pivot_year 0x05 = 2005 := by
  refine ⟨?_, ?_, by decide, by decide⟩
  · unfold velpt_parse_aquadopp at hp
    dsimp only at hp
    split at hp
    · simp at hp
    · split at hp
      · simp at hp
      · split at hp
        · simp at hp
        · split at hp
          · simp at hp
          · simp only [Except.ok.injEq, Option.some.injEq] at hp
            rw [← hp]
            exact ⟨rfl, rfl⟩
  · unfold vel3d_build_system at hs
    dsimp only at hs
    split at hs
    · simp at hs
    · split at hs
      · simp at hs
      · split at hs
        · simp at hs
        · split at hs
          · simp at hs
          · simp only [Except.ok.injEq, Prod.mk.injEq] at hs
            rw [← hs.1]
            constructor <;> simp

end Cgsn

namespace Cgsn

/-- Witness for C8: a 42-byte Aquadopp velocity packet and a 28-byte VEL3D
system packet, both with BCD clock 1995-06-15 10:30:00 (year byte 0x95)
and valid checksums. -/
theorem bcd_century_pivot_witness :
    (velpt_parse_aquadopp
        [165, 1, 21, 0, 48, 0, 21, 16, 149, 6, 0, 0, 0, 0, 0, 0, 0, 0, 0, 0, 0, 0, 0, 0, 0, 0, 0, 0, 0, 0, 0, 0, 0, 0, 0, 0, 0, 0, 0, 0, 32, 206] = .ok (some
      ({ epts := 803212200, date_time_array := [1995, 6, 15, 10, 30, 0], error_code := 0
         battery := 0, speed := 0, heading := 0, pitch := 0, roll := 0, dbar := 0
         status := 0, temp := 0, vel1 := 0, vel2 := 0, vel3 := 0, amp1 := 0, amp2 := 0
         amp3 := 0 })) ∧
      vel3d_build_system
        [165, 17, 14, 0, 48, 0, 21, 16, 149, 6, 0, 0, 0, 0, 0, 0, 0, 0, 0, 0, 0, 0, 0, 0, 0, 0, 25, 222] {} = .ok
      (({ system := { time := [803212200], date_time_array := [[1995, 6, 15, 10, 30, 0]]
                      battery_voltage := [0], speed_of_sound := [0], heading := [0]
                      pitch := [0], roll := [0], temperature := [0], error_code := [0]
                      status_code := [0] } }), true)) ∧
    ((({ epts := 803212200, date_time_array := [1995, 6, 15, 10, 30, 0], error_code := 0
         battery := 0, speed := 0, heading := 0, pitch := 0, roll := 0, dbar := 0
         status := 0, temp := 0, vel1 := 0, vel2 := 0, vel3 := 0, amp1 := 0, amp2 := 0
         amp3 := 0 }) : AquadoppRec).date_time_array.head? = some (nortek_pivot_year (u8
        [165, 1, 21, 0, 48, 0, 21, 16, 149, 6, 0, 0, 0, 0, 0, 0, 0, 0, 0, 0, 0, 0, 0, 0, 0, 0, 0, 0, 0, 0, 0, 0, 0, 0, 0, 0, 0, 0, 0, 0, 32, 206] 8)) ∧
      (({ epts := 803212200, date_time_array := [1995, 6, 15, 10, 30, 0], error_code := 0
          battery := 0, speed := 0, heading := 0, pitch := 0, roll := 0, dbar := 0
          status := 0, temp := 0, vel1 := 0, vel2 := 0, vel3 := 0, amp1 := 0, amp2 := 0
          amp3 := 0 }) : AquadoppRec).epts = timegm (nortek_pivot_year (u8
        [165, 1, 21, 0, 48, 0, 21, 16, 149, 6, 0, 0, 0, 0, 0, 0, 0, 0, 0, 0, 0, 0, 0, 0, 0, 0, 0, 0, 0, 0, 0, 0, 0, 0, 0, 0, 0, 0, 0, 0, 32, 206] 8)) (convert_bcd (u8
        [165, 1, 21, 0, 48, 0, 21, 16, 149, 6, 0, 0, 0, 0, 0, 0, 0, 0, 0, 0, 0, 0, 0, 0, 0, 0, 0, 0, 0, 0, 0, 0, 0, 0, 0, 0, 0, 0, 0, 0, 32, 206] 9)) (convert_bcd (u8
        [165, 1, 21, 0, 48, 0, 21, 16, 149, 6, 0, 0, 0, 0, 0, 0, 0, 0, 0, 0, 0, 0, 0, 0, 0, 0, 0, 0, 0, 0, 0, 0, 0, 0, 0, 0, 0, 0, 0, 0, 32, 206] 6)) (convert_bcd (u8
        [165, 1, 21, 0, 48, 0, 21, 16, 149, 6, 0, 0, 0, 0, 0, 0, 0, 0, 0, 0, 0, 0, 0, 0, 0, 0, 0, 0, 0, 0, 0, 0, 0, 0, 0, 0, 0, 0, 0, 0, 32, 206] 7)) (convert_bcd (u8
        [165, 1, 21, 0, 48, 0, 21, 16, 149, 6, 0, 0, 0, 0, 0, 0, 0, 0, 0, 0, 0, 0, 0, 0, 0, 0, 0, 0, 0, 0, 0, 0, 0, 0, 0, 0, 0, 0, 0, 0, 32, 206] 4)) (convert_bcd (u8
        [165, 1, 21, 0, 48, 0, 21, 16, 149, 6, 0, 0, 0, 0, 0, 0, 0, 0, 0, 0, 0, 0, 0, 0, 0, 0, 0, 0, 0, 0, 0, 0, 0, 0, 0, 0, 0, 0, 0, 0, 32, 206] 5))) ∧
    ((({ system := { time := [803212200], date_time_array := [[1995, 6, 15, 10, 30, 0]]
                     battery_voltage := [0], speed_of_sound := [0], heading := [0]
                     pitch := [0], roll := [0], temperature := [0], error_code := [0]
                     status_code := [0] } }) : Vel3dData).system.date_time_array.getLast? = some
        [nortek_pivot_year (u8 [165, 17, 14, 0, 48, 0, 21, 16, 149, 6, 0, 0, 0, 0, 0, 0, 0, 0, 0, 0, 0, 0, 0, 0, 0, 0, 25, 222] 8), convert_bcd (u8 [165, 17, 14, 0, 48, 0, 21, 16, 149, 6, 0, 0, 0, 0, 0, 0, 0, 0, 0, 0, 0, 0, 0, 0, 0, 0, 25, 222] 9),
          convert_bcd (u8 [165, 17, 14, 0, 48, 0, 21, 16, 149, 6, 0, 0, 0, 0, 0, 0, 0, 0, 0, 0, 0, 0, 0, 0, 0, 0, 25, 222] 6), convert_bcd (u8 [165, 17, 14, 0, 48, 0, 21, 16, 149, 6, 0, 0, 0, 0, 0, 0, 0, 0, 0, 0, 0, 0, 0, 0, 0, 0, 25, 222] 7),
          convert_bcd (u8 [165, 17, 14, 0, 48, 0, 21, 16, 149, 6, 0, 0, 0, 0, 0, 0, 0, 0, 0, 0, 0, 0, 0, 0, 0, 0, 25, 222] 4), convert_bcd (u8 [165, 17, 14, 0, 48, 0, 21, 16, 149, 6, 0, 0, 0, 0, 0, 0, 0, 0, 0, 0, 0, 0, 0, 0, 0, 0, 25, 222] 5)] ∧
      (({ system := { time := [803212200], date_time_array := [[1995, 6, 15, 10, 30, 0]]
                      battery_voltage := [0], speed_of_sound := [0], heading := [0]
                      pitch := [0], roll := [0], temperature := [0], error_code := [0]
                      status_code := [0] } }) : Vel3dData).system.time.getLast? = some
        (timegm (nortek_pivot_year (u8 [165, 17, 14, 0, 48, 0, 21, 16, 149, 6, 0, 0, 0, 0, 0, 0, 0, 0, 0, 0, 0, 0, 0, 0, 0, 0, 25, 222] 8)) (convert_bcd (u8 [165, 17, 14, 0, 48, 0, 21, 16, 149, 6, 0, 0, 0, 0, 0, 0, 0, 0, 0, 0, 0, 0, 0, 0, 0, 0, 25, 222] 9))
          (convert_bcd (u8 [165, 17, 14, 0, 48, 0, 21, 16, 149, 6, 0, 0, 0, 0, 0, 0, 0, 0, 0, 0, 0, 0, 0, 0, 0, 0, 25, 222] 6)) (convert_bcd (u8 [165, 17, 14, 0, 48, 0, 21, 16, 149, 6, 0, 0, 0, 0, 0, 0, 0, 0, 0, 0, 0, 0, 0, 0, 0, 0, 25, 222] 7))
          (convert_bcd (u8 [165, 17, 14, 0, 48, 0, 21, 16, 149, 6, 0, 0, 0, 0, 0, 0, 0, 0, 0, 0, 0, 0, 0, 0, 0, 0, 25, 222] 4)) (convert_bcd (u8 [165, 17, 14, 0, 48, 0, 21, 16, 149, 6, 0, 0, 0, 0, 0, 0, 0, 0, 0, 0, 0, 0, 0, 0, 0, 0, 25, 222] 5)))) ∧
    nortek_pivot_year 0x95 = 1995 ∧ nortek_pivot_year 0x05 = 2005 := by
  have hp : velpt_parse_aquadopp
      [165, 1, 21, 0, 48, 0, 21, 16, 149, 6, 0, 0, 0, 0, 0, 0, 0, 0, 0, 0, 0, 0, 0, 0, 0, 0, 0, 0, 0, 0, 0, 0, 0, 0, 0, 0, 0, 0, 0, 0, 32, 206] = .ok (some
      ({ epts := 803212200, date_time_array := [1995, 6, 15, 10, 30, 0], error_code := 0
         battery := 0, speed := 0, heading := 0, pitch := 0, roll := 0, dbar := 0
         status := 0, temp := 0, vel1 := 0, vel2 := 0, vel3 := 0, amp1 := 0, amp2 := 0
         amp3 := 0 })) := by
    simp +decide [velpt_parse_aquadopp, nortek_calc_checksum, nortekWordSum, readLE16,
      readLE16s, asI16, asI8, u8, nortek_pivot_year, convert_bcd, validCivil, daysInMonth,
      isLeap, timegm, daysFromCivil]
  have hs : vel3d_build_system
      [165, 17, 14, 0, 48, 0, 21, 16, 149, 6, 0, 0, 0, 0, 0, 0, 0, 0, 0, 0, 0, 0, 0, 0, 0, 0, 25, 222] {} = .ok
      (({ system := { time := [803212200], date_time_array := [[1995, 6, 15, 10, 30, 0]]
                      battery_voltage := [0], speed_of_sound := [0], heading := [0]
                      pitch := [0], roll := [0], temperature := [0], error_code := [0]
                      status_code := [0] } }), true) := by
    simp +decide [vel3d_build_system, nortek_calc_checksum, nortekWordSum, readLE16,
      readLE16s, asI16, asI8, u8, nortek_pivot_year, convert_bcd, validCivil, daysInMonth,
      isLeap, timegm, daysFromCivil]
  exact ⟨⟨hp, hs⟩, bcd_century_pivot _ _ hp _ _ _ hs⟩

end Cgsn

namespace Cgsn

/-- C9: for every DCL timestamp whose seconds field is `60.000`, the
`re.sub` rewrite turns it into the same timestamp with seconds `00.000`
and `dcl_to_epoch` adds the remembered 60 seconds, so the result is the
epoch of the `00.000` string plus 60 (and when that string is itself
unparseable, both runs raise the same `ValueError`). -/
theorem dcl_leap_second_rewrite (y1 y2 y3 y4 m1 m2 d1 d2 h1 h2 n1 n2 : Char)
    (hy1 : y1.isDigit = true) (hy2 : y2.isDigit = true) (hy3 : y3.isDigit = true)
    (hy4 : y4.isDigit = true) (hm1 : m1.isDigit = true) (hm2 : m2.isDigit = true)
    (hd1 : d1.isDigit = true) (hd2 : d2.isDigit = true) (hh1 : h1.isDigit = true)
    (hh2 : h2.isDigit = true) (hn1 : n1.isDigit = true) (hn2 : n2.isDigit = true) :
    dcl_to_epoch [y1, y2, y3, y4, '/', m1, m2, '/', d1, d2, ' ', h1, h2, ':', n1, n2, ':',
        '6', '0', '.', '0', '0', '0'] =
      (dcl_to_epoch [y1, y2, y3, y4, '/', m1, m2, '/', d1, d2, ' ', h1, h2, ':', n1, n2, ':',
        '0', '0', '.', '0', '0', '0']).map (· + 60) := by
  have h60 : match60 [y1, y2, y3, y4, '/', m1, m2, '/', d1, d2, ' ', h1, h2, ':', n1, n2, ':',
      '6', '0', '.', '0', '0', '0'] = true := by
    simp +decide [match60, isSpaceCh, anyCh, hy1, hy2, hy3, hy4, hm1, hm2, hd1, hd2, hh1, hh2,
      hn1, hn2]
  have h00 : match60 [y1, y2, y3, y4, '/', m1, m2, '/', d1, d2, ' ', h1, h2, ':', n1, n2, ':',
      '0', '0', '.', '0', '0', '0'] = false := by
    simp +decide [match60]
  have hsub : sub60 [y1, y2, y3, y4, '/', m1, m2, '/', d1, d2, ' ', h1, h2, ':', n1, n2, ':',
      '6', '0', '.', '0', '0', '0'] =
      [y1, y2, y3, y4, '/', m1, m2, '/', d1, d2, ' ', h1, h2, ':', n1, n2, ':',
      '0', '0', '.', '0', '0', '0'] := by
    simp +decide [sub60, matchAt60, anyCh]
  simp [dcl_to_epoch, h60, h00, hsub]
  cases strptimeDcl [y1, y2, y3, y4, '/', m1, m2, '/', d1, d2, ' ', h1, h2, ':', n1, n2, ':',
      '0', '0', '.', '0', '0', '0'] <;> rfl

/-- Witness for C9 at the timestamp `2016/01/15 10:30:60.000`. -/
theorem dcl_leap_second_rewrite_witness :
    (('2' : Char).isDigit = true ∧ ('0' : Char).isDigit = true ∧
      ('1' : Char).isDigit = true ∧ ('6' : Char).isDigit = true ∧
      ('5' : Char).isDigit = true ∧ ('3' : Char).isDigit = true) ∧
    dcl_to_epoch ['2', '0', '1', '6', '/', '0', '1', '/', '1', '5', ' ', '1', '0', ':',
        '3', '0', ':', '6', '0', '.', '0', '0', '0'] =
      (dcl_to_epoch ['2', '0', '1', '6', '/', '0', '1', '/', '1', '5', ' ', '1', '0', ':',
        '3', '0', ':', '0', '0', '.', '0', '0', '0']).map (· + 60) :=
  ⟨⟨by decide, by decide, by decide, by decide, by decide, by decide⟩,
    dcl_leap_second_rewrite '2' '0' '1' '6' '0' '1' '1' '5' '1' '0' '3' '0'
      (by decide) (by decide) (by decide) (by decide) (by decide) (by decide)
      (by decide) (by decide) (by decide) (by decide) (by decide) (by decide)⟩

end Cgsn

namespace Cgsn

/-- Folding addition over a list from any start value. -/
theorem foldl_add_init (l : List Nat) : ∀ n : Nat, l.foldl (· + ·) n = n + l.sum := by
  induction l with
  | nil => intro n; simp
  | cons a l ih => intro n; simp [List.foldl_cons, ih, List.sum_cons]; ring

/-- `byteSum` is the list sum. -/
theorem byteSum_eq_sum (l : List Nat) : byteSum l = l.sum := by
  simp [byteSum, foldl_add_init]

/-- Replacing one entry changes the sum by the difference of the bytes. -/
theorem sum_set_add (l : List Nat) : ∀ (i b : Nat), i < l.length →
    (l.set i b).sum + l.getD i 0 = l.sum + b := by
  induction l with
  | nil => intro i b h; simp at h
  | cons a l ih =>
    intro i b h
    cases i with
    | zero => simp [List.set, List.getD]; ring
    | succ i =>
      simp only [List.set, List.sum_cons, List.getD_cons_succ]
      have := ih i b (by simpa using h)
      omega

/-- Reading back the entry just written. -/
theorem getD_set_self (l : List Nat) : ∀ (i b : Nat), i < l.length →
    (l.set i b).getD i 0 = b := by
  induction l with
  | nil => intro i b h; simp at h
  | cons a l ih =>
    intro i b h
    cases i with
    | zero => simp
    | succ i => simpa using ih i b (by simpa using h)

/-- Writing one entry leaves the others unchanged. -/
theorem getD_set_ne (l : List Nat) : ∀ (i b j : Nat), i ≠ j →
    (l.set i b).getD j 0 = l.getD j 0 := by
  induction l with
  | nil => intro i b j _; simp
  | cons a l ih =>
    intro i b j hne
    cases i with
    | zero =>
      cases j with
      | zero => exact absurd rfl hne
      | succ j => simp
    | succ i =>
      cases j with
      | zero => simp
      | succ j => simpa using ih i b j (by omega)

/-- Reading inside the left part of an append. -/
theorem getD_append_left (l l' : List Nat) : ∀ i, i < l.length →
    (l ++ l').getD i 0 = l.getD i 0 := by
  intro i h
  simp [List.getD, List.getElem?_append_left h]

/-- Reading inside the right part of an append. -/
theorem getD_append_right (l l' : List Nat) : ∀ i, l.length ≤ i →
    (l ++ l').getD i 0 = l'.getD (i - l.length) 0 := by
  intro i h
  simp [List.getD, List.getElem?_append_right h]

end Cgsn

namespace Cgsn

/-- Embedding the computed byte-sum checksum big-endian at the end of a
41-byte MOPAK payload makes verification succeed. -/
theorem mopak_embed_verify (payload : List Nat) (hpl : payload.length = 41) :
    mopak_verify (payload ++ be16Bytes (mopak_calc_checksum payload)) = true := by
  have hv : mopak_calc_checksum payload < 65536 := Nat.mod_lt _ (by norm_num)
  have hlen : (payload ++ be16Bytes (mopak_calc_checksum payload)).length = 43 := by
    simp [be16Bytes, hpl]
  unfold mopak_verify
  rw [hlen]
  have hslice : pySlice (payload ++ be16Bytes (mopak_calc_checksum payload)) 0 41 = payload := by
    simp [pySlice, List.take_append_of_le_length (by omega : 41 ≤ payload.length), hpl]
  rw [hslice]
  have h41 : (payload ++ be16Bytes (mopak_calc_checksum payload)).getD 41 0 =
      mopak_calc_checksum payload / 256 % 256 := by
    rw [getD_append_right _ _ 41 (by omega), hpl]
    simp [be16Bytes]
  have h42 : (payload ++ be16Bytes (mopak_calc_checksum payload)).getD 42 0 =
      mopak_calc_checksum payload % 256 := by
    rw [getD_append_right _ _ 42 (by omega), hpl]
    simp [be16Bytes]
  simp only [readBE16, u8, h41, h42]
  have : mopak_calc_checksum payload / 256 % 256 = mopak_calc_checksum payload / 256 :=
    Nat.mod_eq_of_lt (by omega)
  rw [this]
  simp [Nat.div_add_mod 256]
  omega

/-- Mutating any single payload byte (the checksum field excluded) makes
MOPAK verification fail. -/
theorem mopak_mutate_verify (payload : List Nat) (i b : Nat) (hpl : payload.length = 41)
    (hbytes : ∀ x ∈ payload, x < 256) (hi : i < 41) (hb : b < 256)
    (hne : b ≠ payload.getD i 0) :
    mopak_verify (payload.set i b ++ be16Bytes (mopak_calc_checksum payload)) = false := by
  have hv : mopak_calc_checksum payload < 65536 := Nat.mod_lt _ (by norm_num)
  have hsl : (payload.set i b).length = 41 := by simp [hpl]
  have hlen : (payload.set i b ++ be16Bytes (mopak_calc_checksum payload)).length = 43 := by
    simp [be16Bytes, hsl]
  unfold mopak_verify
  rw [hlen]
  have hslice : pySlice (payload.set i b ++ be16Bytes (mopak_calc_checksum payload)) 0 41 =
      payload.set i b := by
    simp only [pySlice, List.drop_zero]
    rw [List.take_append_of_le_length (by omega : 41 ≤ (payload.set i b).length)]
    exact List.take_of_length_le (by omega)
  rw [hslice]
  have h41 : (payload.set i b ++ be16Bytes (mopak_calc_checksum payload)).getD 41 0 =
      mopak_calc_checksum payload / 256 % 256 := by
    rw [getD_append_right _ _ 41 (by omega), hsl]
    simp [be16Bytes]
  have h42 : (payload.set i b ++ be16Bytes (mopak_calc_checksum payload)).getD 42 0 =
      mopak_calc_checksum payload % 256 := by
    rw [getD_append_right _ _ 42 (by omega), hsl]
    simp [be16Bytes]
  simp only [readBE16, u8, h41, h42]
  have hmod : mopak_calc_checksum payload / 256 % 256 = mopak_calc_checksum payload / 256 :=
    Nat.mod_eq_of_lt (by omega)
  rw [hmod]
  have hread : 256 * (mopak_calc_checksum payload / 256) + mopak_calc_checksum payload % 256 =
      mopak_calc_checksum payload := by omega
  rw [hread]
  have hold : payload.getD i 0 < 256 := by
    apply hbytes
    rw [List.getD_eq_getElem payload 0 (by omega)]
    exact List.getElem_mem _
  have hsum := sum_set_add payload i b (by omega)
  unfold mopak_calc_checksum
  rw [byteSum_eq_sum, byteSum_eq_sum]
  simp only [beq_eq_false_iff_ne, ne_eq]
  omega

end Cgsn

namespace Cgsn

/-- The fold over `List.range` is a `Finset` sum. -/
theorem range_foldl_eq_sum (f : Nat → Nat) :
    ∀ n : Nat, (List.range n).foldl (fun a k => a + f k) 0 = ∑ k ∈ Finset.range n, f k := by
  intro n
  induction n with
  | zero => simp
  | succ n ih =>
    rw [List.range_succ, List.foldl_append, ih, Finset.sum_range_succ]
    simp

/-- The Nortek word sum over a 42-byte record as a `Finset` sum of its
twenty 16-bit little-endian words. -/
theorem nortekWordSum_eq (record : List Nat) :
    nortekWordSum record 42 = ∑ k ∈ Finset.range 20, readLE16 record (2 * k) := by
  unfold nortekWordSum
  norm_num [range_foldl_eq_sum]

/-- The summed words of a 42-byte record ignore the two checksum bytes. -/
theorem nortek_words_append (body cs : List Nat) (hbl : body.length = 40) (k : Nat)
    (hk : k < 20) : readLE16 (body ++ cs) (2 * k) = readLE16 body (2 * k) := by
  unfold readLE16 u8
  rw [getD_append_left _ _ _ (by omega), getD_append_left _ _ _ (by omega)]

/-- Embedding the computed base-0xb58c word-sum checksum little-endian at
the end of a 40-byte Nortek body makes verification succeed. -/
theorem nortek_embed_verify (body : List Nat) (hbl : body.length = 40) :
    nortek_verify 42 (body ++ le16Bytes (nortek_calc_checksum 42 body)) = true := by
  set v := nortek_calc_checksum 42 body with hvdef
  have hv : v < 65536 := Nat.mod_lt _ (by norm_num)
  have h40 : (body ++ le16Bytes v).getD 40 0 = v % 256 := by
    rw [getD_append_right _ _ 40 (by omega), hbl]
    simp [le16Bytes]
  have h41 : (body ++ le16Bytes v).getD 41 0 = v / 256 % 256 := by
    rw [getD_append_right _ _ 41 (by omega), hbl]
    simp [le16Bytes]
  have hsum : nortekWordSum (body ++ le16Bytes v) 42 = nortekWordSum body 42 := by
    rw [nortekWordSum_eq, nortekWordSum_eq]
    exact Finset.sum_congr rfl fun k hk =>
      nortek_words_append body _ hbl k (Finset.mem_range.mp hk)
  unfold nortek_verify
  simp only [readLE16, u8, h40, h41]
  unfold nortek_calc_checksum
  rw [hsum]
  have : v / 256 % 256 = v / 256 := Nat.mod_eq_of_lt (by omega)
  rw [this]
  have : v % 256 + 256 * (v / 256) = v := by omega
  rw [this]
  rw [hvdef]
  unfold nortek_calc_checksum
  simp

/-- Mutating any single body byte (the checksum field excluded) makes
Nortek verification fail. -/
theorem nortek_mutate_verify (body : List Nat) (j c : Nat) (hbl : body.length = 40)
    (hbytes : ∀ x ∈ body, x < 256) (hj : j < 40) (hc : c < 256)
    (hne : c ≠ body.getD j 0) :
    nortek_verify 42 (body.set j c ++ le16Bytes (nortek_calc_checksum 42 body)) = false := by
  set v := nortek_calc_checksum 42 body with hvdef
  have hv : v < 65536 := Nat.mod_lt _ (by norm_num)
  have hsl : (body.set j c).length = 40 := by simp [hbl]
  have h40 : (body.set j c ++ le16Bytes v).getD 40 0 = v % 256 := by
    rw [getD_append_right _ _ 40 (by omega), hsl]
    simp [le16Bytes]
  have h41 : (body.set j c ++ le16Bytes v).getD 41 0 = v / 256 % 256 := by
    rw [getD_append_right _ _ 41 (by omega), hsl]
    simp [le16Bytes]
  have hgb : ∀ i, i < 40 → body.getD i 0 < 256 := by
    intro i hi
    rw [List.getD_eq_getElem body 0 (by omega)]
    exact hbytes _ (List.getElem_mem _)
  -- the word containing byte j
  set k0 := j / 2 with hk0def
  have hk0 : k0 < 20 := by omega
  have hwords_ne : ∀ k, k < 20 → k ≠ k0 →
      readLE16 (body.set j c) (2 * k) = readLE16 body (2 * k) := by
    intro k _ hkne
    unfold readLE16 u8
    rw [getD_set_ne _ _ _ _ (by omega), getD_set_ne _ _ _ _ (by omega)]
  have hold_lt : body.getD j 0 < 256 := hgb j hj
  have hword_old_lt : readLE16 body (2 * k0) < 65536 := by
    unfold readLE16 u8
    have := hgb (2 * k0) (by omega)
    have := hgb (2 * k0 + 1) (by omega)
    omega
  have hword_new_lt : readLE16 (body.set j c) (2 * k0) < 65536 := by
    unfold readLE16 u8
    rcases Nat.mod_two_eq_zero_or_one j with he | ho
    · have hjeq : 2 * k0 = j := by omega
      rw [hjeq, getD_set_self _ _ _ (by omega), getD_set_ne _ _ _ _ (by omega)]
      have := hgb (j + 1) (by omega)
      omega
    · have hjeq : 2 * k0 = j - 1 := by omega
      rw [hjeq]
      rw [getD_set_ne _ _ _ _ (by omega),
        (by omega : j - 1 + 1 = j), getD_set_self _ _ _ (by omega)]
      have := hgb (j - 1) (by omega)
      omega
  have hword_ne : readLE16 (body.set j c) (2 * k0) ≠ readLE16 body (2 * k0) := by
    unfold readLE16 u8
    rcases Nat.mod_two_eq_zero_or_one j with he | ho
    · have hjeq : 2 * k0 = j := by omega
      rw [hjeq, getD_set_self _ _ _ (by omega), getD_set_ne _ _ _ _ (by omega)]
      omega
    · have hjeq : 2 * k0 = j - 1 := by omega
      rw [hjeq]
      rw [getD_set_ne _ _ _ _ (by omega),
        (by omega : j - 1 + 1 = j), getD_set_self _ _ _ (by omega)]
      have hcc := hgb (j - 1) (by omega)
      omega
  have hW : ∑ k ∈ (Finset.range 20).erase k0, readLE16 body (2 * k) + readLE16 body (2 * k0) =
      ∑ k ∈ Finset.range 20, readLE16 body (2 * k) :=
    Finset.sum_erase_add _ _ (Finset.mem_range.mpr hk0)
  have hW' : ∑ k ∈ (Finset.range 20).erase k0, readLE16 (body.set j c) (2 * k) +
      readLE16 (body.set j c) (2 * k0) =
      ∑ k ∈ Finset.range 20, readLE16 (body.set j c) (2 * k) :=
    Finset.sum_erase_add _ _ (Finset.mem_range.mpr hk0)
  have herase : ∑ k ∈ (Finset.range 20).erase k0, readLE16 (body.set j c) (2 * k) =
      ∑ k ∈ (Finset.range 20).erase k0, readLE16 body (2 * k) := by
    refine Finset.sum_congr rfl fun k hk => ?_
    have hkr := Finset.mem_range.mp (Finset.mem_of_mem_erase hk)
    exact hwords_ne k hkr (Finset.ne_of_mem_erase hk)
  have hwsum : nortekWordSum (body.set j c ++ le16Bytes v) 42 =
      nortekWordSum (body.set j c) 42 := by
    rw [nortekWordSum_eq, nortekWordSum_eq]
    exact Finset.sum_congr rfl fun k hk =>
      nortek_words_append _ _ hsl k (Finset.mem_range.mp hk)
  unfold nortek_verify
  simp only [readLE16, u8, h40, h41]
  unfold nortek_calc_checksum
  rw [hwsum, nortekWordSum_eq]
  have hv2 : v / 256 % 256 = v / 256 := Nat.mod_eq_of_lt (by omega)
  rw [hv2]
  have hv3 : v % 256 + 256 * (v / 256) = v := by omega
  rw [hv3]
  have hvW : v = (46476 + ∑ k ∈ Finset.range 20, readLE16 body (2 * k)) % 65536 := by
    rw [hvdef]
    unfold nortek_calc_checksum
    rw [nortekWordSum_eq]
  simp only [beq_eq_false_iff_ne, ne_eq]
  omega

end Cgsn

namespace Cgsn

/-- C6: computing the format checksum (byte sum for MOPAK, base plus
16-bit little-endian word sum for the Nortek decoders, both reduced mod
65536) and embedding it at the expected offset makes verification return
true, while mutating any single byte of the checksummed range (excluding
the checksum field itself) makes it return false. -/
theorem checksum_round_trip
    (payload : List Nat) (i b : Nat) (body : List Nat) (j c : Nat)
    (hpl : payload.length = 41) (hpb : ∀ x ∈ payload, x < 256)
    (hi : i < 41) (hb : b < 256) (hbne : b ≠ payload.getD i 0)
    (hbl : body.length = 40) (hbb : ∀ x ∈ body, x < 256)
    (hj : j < 40) (hc : c < 256) (hcne : c ≠ body.getD j 0) :
    mopak_verify (payload ++ be16Bytes (mopak_calc_checksum payload)) = true ∧
    mopak_verify (payload.set i b ++ be16Bytes (mopak_calc_checksum payload)) = false ∧
    nortek_verify 42 (body ++ le16Bytes (nortek_calc_checksum 42 body)) = true ∧
    nortek_verify 42 (body.set j c ++ le16Bytes (nortek_calc_checksum 42 body)) = false :=
  ⟨mopak_embed_verify payload hpl, mopak_mutate_verify payload i b hpl hpb hi hb hbne,
   nortek_embed_verify body hbl, nortek_mutate_verify body j c hbl hbb hj hc hcne⟩

/-- Witness for C6 on an all-ones MOPAK payload and an all-zero Nortek
body, each mutated at index 0. -/
theorem checksum_round_trip_witness :
    ((List.replicate 41 1 : List Nat).length = 41 ∧ (0 : Nat) < 41 ∧ (2 : Nat) < 256 ∧
      (2 : Nat) ≠ (List.replicate 41 1 : List Nat).getD 0 0 ∧
      (List.replicate 40 0 : List Nat).length = 40 ∧ (0 : Nat) < 40 ∧ (1 : Nat) < 256 ∧
      (1 : Nat) ≠ (List.replicate 40 0 : List Nat).getD 0 0) ∧
    (mopak_verify (List.replicate 41 1 ++
        be16Bytes (mopak_calc_checksum (List.replicate 41 1))) = true ∧
      mopak_verify ((List.replicate 41 1).set 0 2 ++
        be16Bytes (mopak_calc_checksum (List.replicate 41 1))) = false ∧
      nortek_verify 42 (List.replicate 40 0 ++
        le16Bytes (nortek_calc_checksum 42 (List.replicate 40 0))) = true ∧
      nortek_verify 42 ((List.replicate 40 0).set 0 1 ++
        le16Bytes (nortek_calc_checksum 42 (List.replicate 40 0))) = false) :=
  ⟨⟨by decide, by decide, by decide, by decide, by decide, by decide, by decide, by decide⟩,
    checksum_round_trip (List.replicate 41 1) 0 2 (List.replicate 40 0) 0 1
      (by decide) (by decide) (by decide) (by decide) (by decide)
      (by decide) (by decide) (by decide) (by decide) (by decide)⟩

end Cgsn

namespace Cgsn

/-- Appending one row to every column of the table bumps the uniform row
count by one. -/
lemma adcpHeaderUniform_succ {t : AdcpHeaderT} {n : Nat}
    (h : adcpHeaderUniform t n) {x1 : Nat} {x2 : Nat} :
    adcpHeaderUniform (AdcpHeaderT.mk (t.num_bytes ++ [x1]) (t.num_data_types ++ [x2])) (n + 1) := by
  obtain ⟨h1, h2⟩ := h
  exact ⟨by simp [h1], by simp [h2]⟩

/-- Appending one row to every column of the table bumps the uniform row
count by one. -/
lemma adcpFixedUniform_succ {t : AdcpFixedT} {n : Nat}
    (h : adcpFixedUniform t n) {x1 : Nat} {x2 : Nat} {x3 : Nat} {x4 : Nat} {x5 : Nat} {x6 : Nat} {x7 : Nat} {x8 : Nat} {x9 : Nat} {x10 : Nat} {x11 : Nat} {x12 : Nat} {x13 : Nat} {x14 : Nat} {x15 : Nat} {x16 : Nat} {x17 : Nat} {x18 : Nat} {x19 : Nat} {x20 : Nat} {x21 : Nat} {x22 : Nat} {x23 : Nat} {x24 : Nat} {x25 : Nat} {x26 : Int} {x27 : Int} {x28 : Nat} {x29 : Nat} {x30 : Nat} {x31 : Nat} {x32 : Nat} {x33 : Nat} {x34 : Nat} {x35 : Nat} {x36 : Nat} {x37 : Nat} {x38 : Nat} {x39 : Nat} {x40 : Nat} {x41 : Nat} {x42 : Nat} {x43 : Nat} {x44 : Nat} {x45 : Nat} {x46 : Nat} {x47 : Nat} {x48 : Nat} {x49 : Nat} :
    adcpFixedUniform (AdcpFixedT.mk (t.firmware_version ++ [x1]) (t.firmware_revision ++ [x2]) (t.sysconfig_frequency ++ [x3]) (t.sysconfig_beam_pattern ++ [x4]) (t.sysconfig_sensor_config ++ [x5]) (t.sysconfig_head_attached ++ [x6]) (t.sysconfig_vertical_orientation ++ [x7]) (t.data_flag ++ [x8]) (t.lag_length ++ [x9]) (t.num_beams ++ [x10]) (t.num_cells ++ [x11]) (t.pings_per_ensemble ++ [x12]) (t.depth_cell_length ++ [x13]) (t.blank_after_transmit ++ [x14]) (t.signal_processing_mode ++ [x15]) (t.low_corr_threshold ++ [x16]) (t.num_code_repetitions ++ [x17]) (t.percent_good_min ++ [x18]) (t.error_vel_threshold ++ [x19]) (t.time_per_ping_minutes ++ [x20]) (t.time_per_ping_seconds ++ [x21]) (t.coord_transform_type ++ [x22]) (t.coord_transform_tilts ++ [x23]) (t.coord_transform_beams ++ [x24]) (t.coord_transform_mapping ++ [x25]) (t.heading_alignment ++ [x26]) (t.heading_bias ++ [x27]) (t.sensor_source_speed ++ [x28]) (t.sensor_source_depth ++ [x29]) (t.sensor_source_heading ++ [x30]) (t.sensor_source_pitch ++ [x31]) (t.sensor_source_roll ++ [x32]) (t.sensor_source_conductivity ++ [x33]) (t.sensor_source_temperature ++ [x34]) (t.sensor_available_depth ++ [x35]) (t.sensor_available_heading ++ [x36]) (t.sensor_available_pitch ++ [x37]) (t.sensor_available_roll ++ [x38]) (t.sensor_available_conductivity ++ [x39]) (t.sensor_available_temperature ++ [x40]) (t.bin_1_distance ++ [x41]) (t.transmit_pulse_length ++ [x42]) (t.reference_layer_start ++ [x43]) (t.reference_layer_stop ++ [x44]) (t.false_target_threshold ++ [x45]) (t.transmit_lag_distance ++ [x46]) (t.system_bandwidth ++ [x47]) (t.serial_number ++ [x48]) (t.beam_angle ++ [x49])) (n + 1) := by
  obtain ⟨h1, h2, h3, h4, h5, h6, h7, h8, h9, h10, h11, h12, h13, h14, h15, h16, h17, h18, h19, h20, h21, h22, h23, h24, h25, h26, h27, h28, h29, h30, h31, h32, h33, h34, h35, h36, h37, h38, h39, h40, h41, h42, h43, h44, h45, h46, h47, h48, h49⟩ := h
  exact ⟨by simp [h1], by simp [h2], by simp [h3], by simp [h4], by simp [h5], by simp [h6], by simp [h7], by simp [h8], by simp [h9], by simp [h10], by simp [h11], by simp [h12], by simp [h13], by simp [h14], by simp [h15], by simp [h16], by simp [h17], by simp [h18], by simp [h19], by simp [h20], by simp [h21], by simp [h22], by simp [h23], by simp [h24], by simp [h25], by simp [h26], by simp [h27], by simp [h28], by simp [h29], by simp [h30], by simp [h31], by simp [h32], by simp [h33], by simp [h34], by simp [h35], by simp [h36], by simp [h37], by simp [h38], by simp [h39], by simp [h40], by simp [h41], by simp [h42], by simp [h43], by simp [h44], by simp [h45], by simp [h46], by simp [h47], by simp [h48], by simp [h49]⟩

/-- Appending one row to every column of the table bumps the uniform row
count by one. -/
lemma adcpVariableUniform_succ {t : AdcpVariableT} {n : Nat}
    (h : adcpVariableUniform t n) {x1 : Nat} {x2 : Nat} {x3 : (List Nat)} {x4 : Nat} {x5 : Nat} {x6 : Nat} {x7 : Nat} {x8 : Nat} {x9 : Nat} {x10 : Int} {x11 : Int} {x12 : Nat} {x13 : Int} {x14 : Nat} {x15 : Nat} {x16 : Nat} {x17 : Nat} {x18 : Nat} {x19 : Nat} {x20 : Nat} {x21 : Nat} {x22 : Nat} {x23 : Nat} {x24 : Nat} {x25 : Nat} {x26 : Nat} {x27 : Nat} {x28 : Nat} {x29 : Nat} {x30 : Nat} {x31 : Nat} {x32 : Nat} {x33 : Nat} {x34 : Nat} {x35 : Nat} {x36 : Nat} {x37 : Nat} {x38 : Nat} {x39 : Nat} {x40 : Nat} {x41 : Nat} {x42 : Nat} {x43 : Nat} {x44 : Nat} {x45 : Nat} {x46 : Nat} {x47 : Nat} {x48 : Nat} {x49 : (List Nat)} :
    adcpVariableUniform (AdcpVariableT.mk (t.ensemble_number ++ [x1]) (t.ensemble_number_increment ++ [x2]) (t.real_time_clock1 ++ [x3]) (t.bit_result_demod_1 ++ [x4]) (t.bit_result_demod_2 ++ [x5]) (t.bit_result_timing ++ [x6]) (t.speed_of_sound ++ [x7]) (t.transducer_depth ++ [x8]) (t.heading ++ [x9]) (t.pitch ++ [x10]) (t.roll ++ [x11]) (t.salinity ++ [x12]) (t.temperature ++ [x13]) (t.mpt_minutes ++ [x14]) (t.mpt_seconds ++ [x15]) (t.heading_stdev ++ [x16]) (t.pitch_stdev ++ [x17]) (t.roll_stdev ++ [x18]) (t.adc_transmit_current ++ [x19]) (t.adc_transmit_voltage ++ [x20]) (t.adc_ambient_temp ++ [x21]) (t.adc_pressure_plus ++ [x22]) (t.adc_pressure_minus ++ [x23]) (t.adc_attitude_temp ++ [x24]) (t.adc_attitude ++ [x25]) (t.adc_contamination_sensor ++ [x26]) (t.bus_error_exception ++ [x27]) (t.address_error_exception ++ [x28]) (t.illegal_instruction_exception ++ [x29]) (t.zero_divide_instruction ++ [x30]) (t.emulator_exception ++ [x31]) (t.unassigned_exception ++ [x32]) (t.watchdog_restart_occurred ++ [x33]) (t.battery_saver_power ++ [x34]) (t.pinging ++ [x35]) (t.cold_wakeup_occurred ++ [x36]) (t.unknown_wakeup_occurred ++ [x37]) (t.clock_read_error ++ [x38]) (t.unexpected_alarm ++ [x39]) (t.clock_jump_forward ++ [x40]) (t.clock_jump_backward ++ [x41]) (t.power_fail ++ [x42]) (t.spurious_dsp_interrupt ++ [x43]) (t.spurious_uart_interrupt ++ [x44]) (t.spurious_clock_interrupt ++ [x45]) (t.level_7_interrupt ++ [x46]) (t.pressure ++ [x47]) (t.pressure_variance ++ [x48]) (t.real_time_clock2 ++ [x49])) (n + 1) := by
  obtain ⟨h1, h2, h3, h4, h5, h6, h7, h8, h9, h10, h11, h12, h13, h14, h15, h16, h17, h18, h19, h20, h21, h22, h23, h24, h25, h26, h27, h28, h29, h30, h31, h32, h33, h34, h35, h36, h37, h38, h39, h40, h41, h42, h43, h44, h45, h46, h47, h48, h49⟩ := h
  exact ⟨by simp [h1], by simp [h2], by simp [h3], by simp [h4], by simp [h5], by simp [h6], by simp [h7], by simp [h8], by simp [h9], by simp [h10], by simp [h11], by simp [h12], by simp [h13], by simp [h14], by simp [h15], by simp [h16], by simp [h17], by simp [h18], by simp [h19], by simp [h20], by simp [h21], by simp [h22], by simp [h23], by simp [h24], by simp [h25], by simp [h26], by simp [h27], by simp [h28], by simp [h29], by simp [h30], by simp [h31], by simp [h32], by simp [h33], by simp [h34], by simp [h35], by simp [h36], by simp [h37], by simp [h38], by simp [h39], by simp [h40], by simp [h41], by simp [h42], by simp [h43], by simp [h44], by simp [h45], by simp [h46], by simp [h47], by simp [h48], by simp [h49]⟩

/-- Appending one row to every column of the table bumps the uniform row
count by one. -/
lemma adcpVelocityUniform_succ {t : AdcpVelocityT} {n : Nat}
    (h : adcpVelocityUniform t n) {x1 : (List Int)} {x2 : (List Int)} {x3 : (List Int)} {x4 : (List Int)} :
    adcpVelocityUniform (AdcpVelocityT.mk (t.eastward ++ [x1]) (t.northward ++ [x2]) (t.vertical ++ [x3]) (t.error ++ [x4])) (n + 1) := by
  obtain ⟨h1, h2, h3, h4⟩ := h
  exact ⟨by simp [h1], by simp [h2], by simp [h3], by simp [h4]⟩

/-- Appending one row to every column of the table bumps the uniform row
count by one. -/
lemma adcpCorrelationUniform_succ {t : AdcpCorrelationT} {n : Nat}
    (h : adcpCorrelationUniform t n) {x1 : (List Nat)} {x2 : (List Nat)} {x3 : (List Nat)} {x4 : (List Nat)} :
    adcpCorrelationUniform (AdcpCorrelationT.mk (t.magnitude_beam1 ++ [x1]) (t.magnitude_beam2 ++ [x2]) (t.magnitude_beam3 ++ [x3]) (t.magnitude_beam4 ++ [x4])) (n + 1) := by
  obtain ⟨h1, h2, h3, h4⟩ := h
  exact ⟨by simp [h1], by simp [h2], by simp [h3], by simp [h4]⟩

/-- Appending one row to every column of the table bumps the uniform row
count by one. -/
lemma adcpEchoUniform_succ {t : AdcpEchoT} {n : Nat}
    (h : adcpEchoUniform t n) {x1 : (List Nat)} {x2 : (List Nat)} {x3 : (List Nat)} {x4 : (List Nat)} :
    adcpEchoUniform (AdcpEchoT.mk (t.intensity_beam1 ++ [x1]) (t.intensity_beam2 ++ [x2]) (t.intensity_beam3 ++ [x3]) (t.intensity_beam4 ++ [x4])) (n + 1) := by
  obtain ⟨h1, h2, h3, h4⟩ := h
  exact ⟨by simp [h1], by simp [h2], by simp [h3], by simp [h4]⟩

/-- Appending one row to every column of the table bumps the uniform row
count by one. -/
lemma adcpPercentUniform_succ {t : AdcpPercentT} {n : Nat}
    (h : adcpPercentUniform t n) {x1 : (List Nat)} {x2 : (List Nat)} {x3 : (List Nat)} {x4 : (List Nat)} :
    adcpPercentUniform (AdcpPercentT.mk (t.good_3beam ++ [x1]) (t.transforms_reject ++ [x2]) (t.bad_beams ++ [x3]) (t.good_4beam ++ [x4])) (n + 1) := by
  obtain ⟨h1, h2, h3, h4⟩ := h
  exact ⟨by simp [h1], by simp [h2], by simp [h3], by simp [h4]⟩

/-- Effect of a successful fixed-leader chunk parse: every other table is
untouched and every fixed-leader column gains exactly one row. -/
lemma adcp_parse_fixed_chunk_effect (chunk : List Nat) (st st' : AdcpData) (nc : Nat)
    (h : adcp_parse_fixed_chunk chunk st = .ok (st', nc)) :
    st'.time = st.time ∧ st'.header = st.header ∧
    st'.variable_leader = st.variable_leader ∧
    st'.velocity = st.velocity ∧ st'.correlation = st.correlation ∧
    st'.echo = st.echo ∧ st'.percent = st.percent ∧
    ∀ n, adcpFixedUniform st.fixed n → adcpFixedUniform st'.fixed (n + 1) := by
  obtain ⟨t', hd', fx', vl', ve', co', ec', pe'⟩ := st'
  unfold adcp_parse_fixed_chunk at h
  split at h
  · simp at h
  · dsimp only at h
    split at h
    · simp at h
    · split at h
      · simp at h
      · split at h
        · simp at h
        · split at h
          · simp at h
          · simp only [Except.ok.injEq, Prod.mk.injEq, AdcpData.mk.injEq] at h
            obtain ⟨⟨h1, h2, h3, h4, h5, h6, h7, h8⟩, -⟩ := h
            refine ⟨h1.symm, h2.symm, h4.symm, h5.symm, h6.symm, h7.symm, h8.symm, ?_⟩
            intro n hn
            subst h3
            exact adcpFixedUniform_succ hn

/-- Effect of a successful variable-leader chunk parse: every other table is
untouched and every variable-leader column gains exactly one row. -/
lemma adcp_parse_variable_chunk_effect (chunk : List Nat) (st st' : AdcpData)
    (h : adcp_parse_variable_chunk chunk st = .ok st') :
    st'.time = st.time ∧ st'.header = st.header ∧ st'.fixed = st.fixed ∧
    st'.velocity = st.velocity ∧ st'.correlation = st.correlation ∧
    st'.echo = st.echo ∧ st'.percent = st.percent ∧
    ∀ n, adcpVariableUniform st.variable_leader n →
      adcpVariableUniform st'.variable_leader (n + 1) := by
  obtain ⟨t', hd', fx', vl', ve', co', ec', pe'⟩ := st'
  unfold adcp_parse_variable_chunk at h
  split at h
  · simp at h
  · split at h
    · simp at h
    · simp only [Except.ok.injEq, AdcpData.mk.injEq] at h
      obtain ⟨h1, h2, h3, h4, h5, h6, h7, h8⟩ := h
      refine ⟨h1.symm, h2.symm, h3.symm, h5.symm, h6.symm, h7.symm, h8.symm, ?_⟩
      intro n hn
      subst h4
      exact adcpVariableUniform_succ hn

/-- Effect of a successful velocity chunk parse: every other table is
untouched and every velocity column gains exactly one row. -/
lemma adcp_parse_velocity_chunk_effect (chunk : List Nat) (st st' : AdcpData)
    (h : adcp_parse_velocity_chunk chunk st = .ok st') :
    st'.time = st.time ∧ st'.header = st.header ∧ st'.fixed = st.fixed ∧
    st'.variable_leader = st.variable_leader ∧ st'.correlation = st.correlation ∧
    st'.echo = st.echo ∧ st'.percent = st.percent ∧
    ∀ n, adcpVelocityUniform st.velocity n → adcpVelocityUniform st'.velocity (n + 1) := by
  obtain ⟨t', hd', fx', vl', ve', co', ec', pe'⟩ := st'
  unfold adcp_parse_velocity_chunk at h
  dsimp only at h
  split at h
  · simp at h
  · split at h
    · simp at h
    · split at h
      · simp at h
      · simp only [Except.ok.injEq, AdcpData.mk.injEq] at h
        obtain ⟨h1, h2, h3, h4, h5, h6, h7, h8⟩ := h
        refine ⟨h1.symm, h2.symm, h3.symm, h4.symm, h6.symm, h7.symm, h8.symm, ?_⟩
        intro n hn
        subst h5
        exact adcpVelocityUniform_succ hn

/-- Effect of a successful correlation-magnitude chunk parse: every other
table is untouched and every correlation column gains exactly one row. -/
lemma adcp_parse_correlation_chunk_effect (chunk : List Nat) (st st' : AdcpData)
    (h : adcp_parse_correlation_chunk chunk st = .ok st') :
    st'.time = st.time ∧ st'.header = st.header ∧ st'.fixed = st.fixed ∧
    st'.variable_leader = st.variable_leader ∧ st'.velocity = st.velocity ∧
    st'.echo = st.echo ∧ st'.percent = st.percent ∧
    ∀ n, adcpCorrelationUniform st.correlation n →
      adcpCorrelationUniform st'.correlation (n + 1) := by
  obtain ⟨t', hd', fx', vl', ve', co', ec', pe'⟩ := st'
  unfold adcp_parse_correlation_chunk at h
  dsimp only at h
  split at h
  · simp at h
  · split at h
    · simp at h
    · split at h
      · simp at h
      · simp only [Except.ok.injEq, AdcpData.mk.injEq] at h
        obtain ⟨h1, h2, h3, h4, h5, h6, h7, h8⟩ := h
        refine ⟨h1.symm, h2.symm, h3.symm, h4.symm, h5.symm, h7.symm, h8.symm, ?_⟩
        intro n hn
        subst h6
        exact adcpCorrelationUniform_succ hn

/-- Effect of a successful echo-intensity chunk parse: every other table is
untouched and every echo column gains exactly one row. -/
lemma adcp_parse_echo_chunk_effect (chunk : List Nat) (st st' : AdcpData)
    (h : adcp_parse_echo_chunk chunk st = .ok st') :
    st'.time = st.time ∧ st'.header = st.header ∧ st'.fixed = st.fixed ∧
    st'.variable_leader = st.variable_leader ∧ st'.velocity = st.velocity ∧
    st'.correlation = st.correlation ∧ st'.percent = st.percent ∧
    ∀ n, adcpEchoUniform st.echo n → adcpEchoUniform st'.echo (n + 1) := by
  obtain ⟨t', hd', fx', vl', ve', co', ec', pe'⟩ := st'
  unfold adcp_parse_echo_chunk at h
  dsimp only at h
  split at h
  · simp at h
  · split at h
    · simp at h
    · split at h
      · simp at h
      · simp only [Except.ok.injEq, AdcpData.mk.injEq] at h
        obtain ⟨h1, h2, h3, h4, h5, h6, h7, h8⟩ := h
        refine ⟨h1.symm, h2.symm, h3.symm, h4.symm, h5.symm, h6.symm, h8.symm, ?_⟩
        intro n hn
        subst h7
        exact adcpEchoUniform_succ hn

/-- Effect of a successful percent-good chunk parse: every other table is
untouched and every percent-good column gains exactly one row. -/
lemma adcp_parse_percent_chunk_effect (chunk : List Nat) (st st' : AdcpData)
    (h : adcp_parse_percent_chunk chunk st = .ok st') :
    st'.time = st.time ∧ st'.header = st.header ∧ st'.fixed = st.fixed ∧
    st'.variable_leader = st.variable_leader ∧ st'.velocity = st.velocity ∧
    st'.correlation = st.correlation ∧ st'.echo = st.echo ∧
    ∀ n, adcpPercentUniform st.percent n → adcpPercentUniform st'.percent (n + 1) := by
  obtain ⟨t', hd', fx', vl', ve', co', ec', pe'⟩ := st'
  unfold adcp_parse_percent_chunk at h
  dsimp only at h
  split at h
  · simp at h
  · split at h
    · simp at h
    · split at h
      · simp at h
      · simp only [Except.ok.injEq, AdcpData.mk.injEq] at h
        obtain ⟨h1, h2, h3, h4, h5, h6, h7, h8⟩ := h
        refine ⟨h1.symm, h2.symm, h3.symm, h4.symm, h5.symm, h6.symm, h7.symm, ?_⟩
        intro n hn
        subst h8
        exact adcpPercentUniform_succ hn
/-- Manual unfolding equation for the empty offset list. -/
lemma adcpProcessOffsets_nil (ensemble : List Nat) (iCells : Option Nat)
    (st : AdcpData) : adcpProcessOffsets ensemble [] iCells st = .ok st := rfl

/-- Manual unfolding equation for a nonempty offset list. -/
lemma adcpProcessOffsets_cons (ensemble : List Nat) (offset : ℕ) (rest : List Nat)
    (iCells : Option Nat) (st : AdcpData) :
    adcpProcessOffsets ensemble (offset :: rest) iCells st =
    let s := pySlice ensemble offset (offset + 2)
    if s.length ≠ 2 then .error "struct.error"
    else
      let data_type := readLE16 s 0
      if data_type = 0 then
        match adcp_parse_fixed_chunk (pySlice ensemble offset (offset + 59)) st with
        | .error e => .error e
        | .ok (st', n) => adcpProcessOffsets ensemble rest (some n) st'
      else if data_type = 128 then
        match adcp_parse_variable_chunk (pySlice ensemble offset (offset + 65)) st with
        | .error e => .error e
        | .ok st' => adcpProcessOffsets ensemble rest iCells st'
      else if data_type = 256 then
        match iCells with
        | none => .error "NameError"
        | some n =>
          match adcp_parse_velocity_chunk (pySlice ensemble offset (offset + (2 + 8 * n))) st with
          | .error e => .error e
          | .ok st' => adcpProcessOffsets ensemble rest iCells st'
      else if data_type = 512 then
        match iCells with
        | none => .error "NameError"
        | some n =>
          match adcp_parse_correlation_chunk
              (pySlice ensemble offset (offset + (2 + 4 * n))) st with
          | .error e => .error e
          | .ok st' => adcpProcessOffsets ensemble rest iCells st'
      else if data_type = 768 then
        match iCells with
        | none => .error "NameError"
        | some n =>
          match adcp_parse_echo_chunk (pySlice ensemble offset (offset + (2 + 4 * n))) st with
          | .error e => .error e
          | .ok st' => adcpProcessOffsets ensemble rest iCells st'
      else if data_type = 1024 then
        match iCells with
        | none => .error "NameError"
        | some n =>
          match adcp_parse_percent_chunk (pySlice ensemble offset (offset + (2 + 4 * n))) st with
          | .error e => .error e
          | .ok st' => adcpProcessOffsets ensemble rest iCells st'
      else
        adcpProcessOffsets ensemble rest iCells st := rfl
/-- Invariant of the `for offset in offsets` dispatch loop: on success the
`time` and `header` tables are returned untouched, and each subtype table's
row count grows by the number of offsets whose data-type id selects that
table. -/
lemma adcpProcess_align (ensemble : List Nat) :
    ∀ (offsets : List Nat) (iCells : Option Nat) (st st' : AdcpData),
    adcpProcessOffsets ensemble offsets iCells st = .ok st' →
    st'.time = st.time ∧ st'.header = st.header ∧
    (∀ n, adcpFixedUniform st.fixed n →
      adcpFixedUniform st'.fixed (n + (adcpDataTypes ensemble offsets).count 0)) ∧
    (∀ n, adcpVariableUniform st.variable_leader n →
      adcpVariableUniform st'.variable_leader
        (n + (adcpDataTypes ensemble offsets).count 128)) ∧
    (∀ n, adcpVelocityUniform st.velocity n →
      adcpVelocityUniform st'.velocity (n + (adcpDataTypes ensemble offsets).count 256)) ∧
    (∀ n, adcpCorrelationUniform st.correlation n →
      adcpCorrelationUniform st'.correlation
        (n + (adcpDataTypes ensemble offsets).count 512)) ∧
    (∀ n, adcpEchoUniform st.echo n →
      adcpEchoUniform st'.echo (n + (adcpDataTypes ensemble offsets).count 768)) ∧
    (∀ n, adcpPercentUniform st.percent n →
      adcpPercentUniform st'.percent (n + (adcpDataTypes ensemble offsets).count 1024)) := by
  intro offsets
  induction offsets with
  | nil =>
    intro iCells st st' h
    rw [adcpProcessOffsets_nil] at h
    simp only [Except.ok.injEq] at h
    subst h
    refine ⟨rfl, rfl, ?_, ?_, ?_, ?_, ?_, ?_⟩ <;>
      · intro n hn
        simpa [adcpDataTypes] using hn
  | cons offset rest ih =>
    intro iCells st st' h
    rw [adcpProcessOffsets_cons] at h
    dsimp only at h
    split at h
    · simp at h
    · -- dispatch on the data-type id
      split at h
      · -- fixed leader (id 0)
        rename_i hid
        split at h
        · simp at h
        · rename_i st1 nc1 heq
          obtain ⟨e1, e2, e3, e4, e5, e6, e7, e8⟩ := adcp_parse_fixed_chunk_effect _ _ _ _ heq
          obtain ⟨i1, i2, i3, i4, i5, i6, i7, i8⟩ := ih (some nc1) st1 st' h
          refine ⟨i1.trans e1, i2.trans e2, ?_, ?_, ?_, ?_, ?_, ?_⟩
          · intro n hn
            have hcnt : (adcpDataTypes ensemble (offset :: rest)).count 0 =
                (adcpDataTypes ensemble rest).count 0 + 1 := by
              simp [adcpDataTypes, List.count_cons, hid]
            have hstep := e8 n hn
            have h2 := i3 (n + 1) hstep
            rw [hcnt, ← Nat.add_assoc]
            rw [Nat.add_right_comm] at h2
            exact h2
          · intro n hn
            have hcnt : (adcpDataTypes ensemble (offset :: rest)).count 128 =
                (adcpDataTypes ensemble rest).count 128 := by
              simp [adcpDataTypes, List.count_cons, hid]
            rw [hcnt]
            refine i4 n ?_
            rw [e3]
            exact hn
          · intro n hn
            have hcnt : (adcpDataTypes ensemble (offset :: rest)).count 256 =
                (adcpDataTypes ensemble rest).count 256 := by
              simp [adcpDataTypes, List.count_cons, hid]
            rw [hcnt]
            refine i5 n ?_
            rw [e4]
            exact hn
          · intro n hn
            have hcnt : (adcpDataTypes ensemble (offset :: rest)).count 512 =
                (adcpDataTypes ensemble rest).count 512 := by
              simp [adcpDataTypes, List.count_cons, hid]
            rw [hcnt]
            refine i6 n ?_
            rw [e5]
            exact hn
          · intro n hn
            have hcnt : (adcpDataTypes ensemble (offset :: rest)).count 768 =
                (adcpDataTypes ensemble rest).count 768 := by
              simp [adcpDataTypes, List.count_cons, hid]
            rw [hcnt]
            refine i7 n ?_
            rw [e6]
            exact hn
          · intro n hn
            have hcnt : (adcpDataTypes ensemble (offset :: rest)).count 1024 =
                (adcpDataTypes ensemble rest).count 1024 := by
              simp [adcpDataTypes, List.count_cons, hid]
            rw [hcnt]
            refine i8 n ?_
            rw [e7]
            exact hn
      · rename_i hne0
        split at h
        · -- variable leader (id 128)
          rename_i hid
          split at h
          · simp at h
          · rename_i st1 heq
            obtain ⟨e1, e2, e3, e4, e5, e6, e7, e8⟩ := adcp_parse_variable_chunk_effect _ _ _ heq
            obtain ⟨i1, i2, i3, i4, i5, i6, i7, i8⟩ := ih iCells st1 st' h
            refine ⟨i1.trans e1, i2.trans e2, ?_, ?_, ?_, ?_, ?_, ?_⟩
            · intro n hn
              have hcnt : (adcpDataTypes ensemble (offset :: rest)).count 0 =
                  (adcpDataTypes ensemble rest).count 0 := by
                simp [adcpDataTypes, List.count_cons, hid]
              rw [hcnt]
              refine i3 n ?_
              rw [e3]
              exact hn
            · intro n hn
              have hcnt : (adcpDataTypes ensemble (offset :: rest)).count 128 =
                  (adcpDataTypes ensemble rest).count 128 + 1 := by
                simp [adcpDataTypes, List.count_cons, hid]
              have hstep := e8 n hn
              have h2 := i4 (n + 1) hstep
              rw [hcnt, ← Nat.add_assoc]
              rw [Nat.add_right_comm] at h2
              exact h2
            · intro n hn
              have hcnt : (adcpDataTypes ensemble (offset :: rest)).count 256 =
                  (adcpDataTypes ensemble rest).count 256 := by
                simp [adcpDataTypes, List.count_cons, hid]
              rw [hcnt]
              refine i5 n ?_
              rw [e4]
              exact hn
            · intro n hn
              have hcnt : (adcpDataTypes ensemble (offset :: rest)).count 512 =
                  (adcpDataTypes ensemble rest).count 512 := by
                simp [adcpDataTypes, List.count_cons, hid]
              rw [hcnt]
              refine i6 n ?_
              rw [e5]
              exact hn
            · intro n hn
              have hcnt : (adcpDataTypes ensemble (offset :: rest)).count 768 =
                  (adcpDataTypes ensemble rest).count 768 := by
                simp [adcpDataTypes, List.count_cons, hid]
              rw [hcnt]
              refine i7 n ?_
              rw [e6]
              exact hn
            · intro n hn
              have hcnt : (adcpDataTypes ensemble (offset :: rest)).count 1024 =
                  (adcpDataTypes ensemble rest).count 1024 := by
                simp [adcpDataTypes, List.count_cons, hid]
              rw [hcnt]
              refine i8 n ?_
              rw [e7]
              exact hn
        · rename_i hne128
          split at h
          · -- velocity (id 256)
            rename_i hid
            split at h
            · simp at h
            · rename_i nc1
              split at h
              · simp at h
              · rename_i st1 heq
                obtain ⟨e1, e2, e3, e4, e5, e6, e7, e8⟩ := adcp_parse_velocity_chunk_effect _ _ _ heq
                obtain ⟨i1, i2, i3, i4, i5, i6, i7, i8⟩ := ih (some nc1) st1 st' h
                refine ⟨i1.trans e1, i2.trans e2, ?_, ?_, ?_, ?_, ?_, ?_⟩
                · intro n hn
                  have hcnt : (adcpDataTypes ensemble (offset :: rest)).count 0 =
                      (adcpDataTypes ensemble rest).count 0 := by
                    simp [adcpDataTypes, List.count_cons, hid]
                  rw [hcnt]
                  refine i3 n ?_
                  rw [e3]
                  exact hn
                · intro n hn
                  have hcnt : (adcpDataTypes ensemble (offset :: rest)).count 128 =
                      (adcpDataTypes ensemble rest).count 128 := by
                    simp [adcpDataTypes, List.count_cons, hid]
                  rw [hcnt]
                  refine i4 n ?_
                  rw [e4]
                  exact hn
                · intro n hn
                  have hcnt : (adcpDataTypes ensemble (offset :: rest)).count 256 =
                      (adcpDataTypes ensemble rest).count 256 + 1 := by
                    simp [adcpDataTypes, List.count_cons, hid]
                  have hstep := e8 n hn
                  have h2 := i5 (n + 1) hstep
                  rw [hcnt, ← Nat.add_assoc]
                  rw [Nat.add_right_comm] at h2
                  exact h2
                · intro n hn
                  have hcnt : (adcpDataTypes ensemble (offset :: rest)).count 512 =
                      (adcpDataTypes ensemble rest).count 512 := by
                    simp [adcpDataTypes, List.count_cons, hid]
                  rw [hcnt]
                  refine i6 n ?_
                  rw [e5]
                  exact hn
                · intro n hn
                  have hcnt : (adcpDataTypes ensemble (offset :: rest)).count 768 =
                      (adcpDataTypes ensemble rest).count 768 := by
                    simp [adcpDataTypes, List.count_cons, hid]
                  rw [hcnt]
                  refine i7 n ?_
                  rw [e6]
                  exact hn
                · intro n hn
                  have hcnt : (adcpDataTypes ensemble (offset :: rest)).count 1024 =
                      (adcpDataTypes ensemble rest).count 1024 := by
                    simp [adcpDataTypes, List.count_cons, hid]
                  rw [hcnt]
                  refine i8 n ?_
                  rw [e7]
                  exact hn
          · rename_i hne256
            split at h
            · -- correlation (id 512)
              rename_i hid
              split at h
              · simp at h
              · rename_i nc1
                split at h
                · simp at h
                · rename_i st1 heq
                  obtain ⟨e1, e2, e3, e4, e5, e6, e7, e8⟩ := adcp_parse_correlation_chunk_effect _ _ _ heq
                  obtain ⟨i1, i2, i3, i4, i5, i6, i7, i8⟩ := ih (some nc1) st1 st' h
                  refine ⟨i1.trans e1, i2.trans e2, ?_, ?_, ?_, ?_, ?_, ?_⟩
                  · intro n hn
                    have hcnt : (adcpDataTypes ensemble (offset :: rest)).count 0 =
                        (adcpDataTypes ensemble rest).count 0 := by
                      simp [adcpDataTypes, List.count_cons, hid]
                    rw [hcnt]
                    refine i3 n ?_
                    rw [e3]
                    exact hn
                  · intro n hn
                    have hcnt : (adcpDataTypes ensemble (offset :: rest)).count 128 =
                        (adcpDataTypes ensemble rest).count 128 := by
                      simp [adcpDataTypes, List.count_cons, hid]
                    rw [hcnt]
                    refine i4 n ?_
                    rw [e4]
                    exact hn
                  · intro n hn
                    have hcnt : (adcpDataTypes ensemble (offset :: rest)).count 256 =
                        (adcpDataTypes ensemble rest).count 256 := by
                      simp [adcpDataTypes, List.count_cons, hid]
                    rw [hcnt]
                    refine i5 n ?_
                    rw [e5]
                    exact hn
                  · intro n hn
                    have hcnt : (adcpDataTypes ensemble (offset :: rest)).count 512 =
                        (adcpDataTypes ensemble rest).count 512 + 1 := by
                      simp [adcpDataTypes, List.count_cons, hid]
                    have hstep := e8 n hn
                    have h2 := i6 (n + 1) hstep
                    rw [hcnt, ← Nat.add_assoc]
                    rw [Nat.add_right_comm] at h2
                    exact h2
                  · intro n hn
                    have hcnt : (adcpDataTypes ensemble (offset :: rest)).count 768 =
                        (adcpDataTypes ensemble rest).count 768 := by
                      simp [adcpDataTypes, List.count_cons, hid]
                    rw [hcnt]
                    refine i7 n ?_
                    rw [e6]
                    exact hn
                  · intro n hn
                    have hcnt : (adcpDataTypes ensemble (offset :: rest)).count 1024 =
                        (adcpDataTypes ensemble rest).count 1024 := by
                      simp [adcpDataTypes, List.count_cons, hid]
                    rw [hcnt]
                    refine i8 n ?_
                    rw [e7]
                    exact hn
            · rename_i hne512
              split at h
              · -- echo (id 768)
                rename_i hid
                split at h
                · simp at h
                · rename_i nc1
                  split at h
                  · simp at h
                  · rename_i st1 heq
                    obtain ⟨e1, e2, e3, e4, e5, e6, e7, e8⟩ := adcp_parse_echo_chunk_effect _ _ _ heq
                    obtain ⟨i1, i2, i3, i4, i5, i6, i7, i8⟩ := ih (some nc1) st1 st' h
                    refine ⟨i1.trans e1, i2.trans e2, ?_, ?_, ?_, ?_, ?_, ?_⟩
                    · intro n hn
                      have hcnt : (adcpDataTypes ensemble (offset :: rest)).count 0 =
                          (adcpDataTypes ensemble rest).count 0 := by
                        simp [adcpDataTypes, List.count_cons, hid]
                      rw [hcnt]
                      refine i3 n ?_
                      rw [e3]
                      exact hn
                    · intro n hn
                      have hcnt : (adcpDataTypes ensemble (offset :: rest)).count 128 =
                          (adcpDataTypes ensemble rest).count 128 := by
                        simp [adcpDataTypes, List.count_cons, hid]
                      rw [hcnt]
                      refine i4 n ?_
                      rw [e4]
                      exact hn
                    · intro n hn
                      have hcnt : (adcpDataTypes ensemble (offset :: rest)).count 256 =
                          (adcpDataTypes ensemble rest).count 256 := by
                        simp [adcpDataTypes, List.count_cons, hid]
                      rw [hcnt]
                      refine i5 n ?_
                      rw [e5]
                      exact hn
                    · intro n hn
                      have hcnt : (adcpDataTypes ensemble (offset :: rest)).count 512 =
                          (adcpDataTypes ensemble rest).count 512 := by
                        simp [adcpDataTypes, List.count_cons, hid]
                      rw [hcnt]
                      refine i6 n ?_
                      rw [e6]
                      exact hn
                    · intro n hn
                      have hcnt : (adcpDataTypes ensemble (offset :: rest)).count 768 =
                          (adcpDataTypes ensemble rest).count 768 + 1 := by
                        simp [adcpDataTypes, List.count_cons, hid]
                      have hstep := e8 n hn
                      have h2 := i7 (n + 1) hstep
                      rw [hcnt, ← Nat.add_assoc]
                      rw [Nat.add_right_comm] at h2
                      exact h2
                    · intro n hn
                      have hcnt : (adcpDataTypes ensemble (offset :: rest)).count 1024 =
                          (adcpDataTypes ensemble rest).count 1024 := by
                        simp [adcpDataTypes, List.count_cons, hid]
                      rw [hcnt]
                      refine i8 n ?_
                      rw [e7]
                      exact hn
              · rename_i hne768
                split at h
                · -- percent (id 1024)
                  rename_i hid
                  split at h
                  · simp at h
                  · rename_i nc1
                    split at h
                    · simp at h
                    · rename_i st1 heq
                      obtain ⟨e1, e2, e3, e4, e5, e6, e7, e8⟩ := adcp_parse_percent_chunk_effect _ _ _ heq
                      obtain ⟨i1, i2, i3, i4, i5, i6, i7, i8⟩ := ih (some nc1) st1 st' h
                      refine ⟨i1.trans e1, i2.trans e2, ?_, ?_, ?_, ?_, ?_, ?_⟩
                      · intro n hn
                        have hcnt : (adcpDataTypes ensemble (offset :: rest)).count 0 =
                            (adcpDataTypes ensemble rest).count 0 := by
                          simp [adcpDataTypes, List.count_cons, hid]
                        rw [hcnt]
                        refine i3 n ?_
                        rw [e3]
                        exact hn
                      · intro n hn
                        have hcnt : (adcpDataTypes ensemble (offset :: rest)).count 128 =
                            (adcpDataTypes ensemble rest).count 128 := by
                          simp [adcpDataTypes, List.count_cons, hid]
                        rw [hcnt]
                        refine i4 n ?_
                        rw [e4]
                        exact hn
                      · intro n hn
                        have hcnt : (adcpDataTypes ensemble (offset :: rest)).count 256 =
                            (adcpDataTypes ensemble rest).count 256 := by
                          simp [adcpDataTypes, List.count_cons, hid]
                        rw [hcnt]
                        refine i5 n ?_
                        rw [e5]
                        exact hn
                      · intro n hn
                        have hcnt : (adcpDataTypes ensemble (offset :: rest)).count 512 =
                            (adcpDataTypes ensemble rest).count 512 := by
                          simp [adcpDataTypes, List.count_cons, hid]
                        rw [hcnt]
                        refine i6 n ?_
                        rw [e6]
                        exact hn
                      · intro n hn
                        have hcnt : (adcpDataTypes ensemble (offset :: rest)).count 768 =
                            (adcpDataTypes ensemble rest).count 768 := by
                          simp [adcpDataTypes, List.count_cons, hid]
                        rw [hcnt]
                        refine i7 n ?_
                        rw [e7]
                        exact hn
                      · intro n hn
                        have hcnt : (adcpDataTypes ensemble (offset :: rest)).count 1024 =
                            (adcpDataTypes ensemble rest).count 1024 + 1 := by
                          simp [adcpDataTypes, List.count_cons, hid]
                        have hstep := e8 n hn
                        have h2 := i8 (n + 1) hstep
                        rw [hcnt, ← Nat.add_assoc]
                        rw [Nat.add_right_comm] at h2
                        exact h2
                · rename_i hne1024
                  -- unknown data-type id: no table is touched
                  obtain ⟨i1, i2, i3, i4, i5, i6, i7, i8⟩ := ih iCells st st' h
                  refine ⟨i1, i2, ?_, ?_, ?_, ?_, ?_, ?_⟩
                  · intro n hn
                    have hcnt : (adcpDataTypes ensemble (offset :: rest)).count 0 =
                        (adcpDataTypes ensemble rest).count 0 := by
                      simp [adcpDataTypes, List.count_cons, Ne.symm hne0]
                    rw [hcnt]
                    exact i3 n hn
                  · intro n hn
                    have hcnt : (adcpDataTypes ensemble (offset :: rest)).count 128 =
                        (adcpDataTypes ensemble rest).count 128 := by
                      simp [adcpDataTypes, List.count_cons, Ne.symm hne128]
                    rw [hcnt]
                    exact i4 n hn
                  · intro n hn
                    have hcnt : (adcpDataTypes ensemble (offset :: rest)).count 256 =
                        (adcpDataTypes ensemble rest).count 256 := by
                      simp [adcpDataTypes, List.count_cons, Ne.symm hne256]
                    rw [hcnt]
                    exact i5 n hn
                  · intro n hn
                    have hcnt : (adcpDataTypes ensemble (offset :: rest)).count 512 =
                        (adcpDataTypes ensemble rest).count 512 := by
                      simp [adcpDataTypes, List.count_cons, Ne.symm hne512]
                    rw [hcnt]
                    exact i6 n hn
                  · intro n hn
                    have hcnt : (adcpDataTypes ensemble (offset :: rest)).count 768 =
                        (adcpDataTypes ensemble rest).count 768 := by
                      simp [adcpDataTypes, List.count_cons, Ne.symm hne768]
                    rw [hcnt]
                    exact i7 n hn
                  · intro n hn
                    have hcnt : (adcpDataTypes ensemble (offset :: rest)).count 1024 =
                        (adcpDataTypes ensemble rest).count 1024 := by
                      simp [adcpDataTypes, List.count_cons, Ne.symm hne1024]
                    rw [hcnt]
                    exact i8 n hn

/-- A successful `_build_parsed_values` call on a well-formed ensemble
preserves row alignment: it appends one row to `time` and to both header
columns, and the offset dispatch then appends exactly one row to every
column of each of the six subtype tables. -/
lemma adcp_build_align (ts : List Char) (ensemble : List Nat) (st st' : AdcpData)
    (hwf : adcpWellFormed ensemble)
    (h : adcp_build ts ensemble st = .ok st')
    (hal : adcpAligned st) : adcpAligned st' := by
  unfold adcp_build at h
  dsimp only at h
  split at h
  · simp at h
  · split at h
    · simp at h
    · split at h
      · simp at h
      · split at h
        · simp at h
        · split at h
          · simp at h
          · rename_i t ht
            split at h
            · simp at h
            · rename_i offsets hoff
              unfold adcpWellFormed at hwf
              rw [hoff] at hwf
              dsimp only at hwf
              obtain ⟨c0, c128, c256, c512, c768, c1024⟩ := hwf
              obtain ⟨p1, p2, p3, p4, p5, p6, p7, p8⟩ :=
                adcpProcess_align ensemble offsets none _ st' h
              dsimp only at p1 p2 p3 p4 p5 p6 p7 p8
              unfold adcpAligned at hal ⊢
              obtain ⟨a1, a2, a3, a4, a5, a6, a7⟩ := hal
              have htime : st'.time.length = st.time.length + 1 := by
                rw [p1]
                simp
              rw [c0] at p3
              rw [c128] at p4
              rw [c256] at p5
              rw [c512] at p6
              rw [c768] at p7
              rw [c1024] at p8
              refine ⟨?_, ?_, ?_, ?_, ?_, ?_, ?_⟩
              · rw [p2, htime]
                exact adcpHeaderUniform_succ a1
              · rw [htime]
                exact p3 _ a2
              · rw [htime]
                exact p4 _ a3
              · rw [htime]
                exact p5 _ a4
              · rw [htime]
                exact p6 _ a5
              · rw [htime]
                exact p7 _ a6
              · rw [htime]
                exact p8 _ a7

/-- Manual unfolding equation: no lines left. -/
lemma adcp_parse_data_nil (st : AdcpData) : adcp_parse_data [] st = .ok st := rfl

/-- Manual unfolding equation: a line the PD0 regex did not match. -/
lemma adcp_parse_data_none (rest : List (Option (List Char × List Nat)))
    (st : AdcpData) : adcp_parse_data (none :: rest) st = adcp_parse_data rest st := rfl

/-- Manual unfolding equation: a matched line. -/
lemma adcp_parse_data_some (ts : List Char) (ens : List Nat)
    (rest : List (Option (List Char × List Nat))) (st : AdcpData) :
    adcp_parse_data (some (ts, ens) :: rest) st =
      match adcp_build ts ens st with
      | .error e => .error e
      | .ok st' => adcp_parse_data rest st' := rfl

/-- The empty record sink (all tables empty) is trivially row-aligned. -/
lemma adcpAligned_empty : adcpAligned {} :=
  ⟨⟨rfl, rfl⟩, ⟨rfl, rfl, rfl, rfl, rfl, rfl, rfl, rfl, rfl, rfl, rfl, rfl, rfl, rfl, rfl, rfl, rfl, rfl, rfl, rfl, rfl, rfl, rfl, rfl, rfl, rfl, rfl, rfl, rfl, rfl, rfl, rfl, rfl, rfl, rfl, rfl, rfl, rfl, rfl, rfl, rfl, rfl, rfl, rfl, rfl, rfl, rfl, rfl, rfl⟩,
   ⟨rfl, rfl, rfl, rfl, rfl, rfl, rfl, rfl, rfl, rfl, rfl, rfl, rfl, rfl, rfl, rfl, rfl, rfl, rfl, rfl, rfl, rfl, rfl, rfl, rfl, rfl, rfl, rfl, rfl, rfl, rfl, rfl, rfl, rfl, rfl, rfl, rfl, rfl, rfl, rfl, rfl, rfl, rfl, rfl, rfl, rfl, rfl, rfl, rfl⟩,
   ⟨rfl, rfl, rfl, rfl⟩, ⟨rfl, rfl, rfl, rfl⟩, ⟨rfl, rfl, rfl, rfl⟩, ⟨rfl, rfl, rfl, rfl⟩⟩

/-- Row alignment is an invariant of the whole line scan, provided every
matched frame is well formed. -/
lemma adcp_parse_data_align :
    ∀ (lines : List (Option (List Char × List Nat))) (st st' : AdcpData),
    (∀ ts ens, some (ts, ens) ∈ lines → adcpWellFormed ens) →
    adcpAligned st →
    adcp_parse_data lines st = .ok st' →
    adcpAligned st' := by
  intro lines
  induction lines with
  | nil =>
    intro st st' _ hal h
    rw [adcp_parse_data_nil] at h
    simp only [Except.ok.injEq] at h
    subst h
    exact hal
  | cons line rest ih =>
    intro st st' hwf hal h
    match line with
    | none =>
      rw [adcp_parse_data_none] at h
      exact ih st st' (fun ts ens hm => hwf ts ens (List.mem_cons_of_mem _ hm)) hal h
    | some (ts, ens) =>
      rw [adcp_parse_data_some] at h
      split at h
      · simp at h
      · rename_i st1 heq
        exact ih st1 st' (fun ts ens hm => hwf ts ens (List.mem_cons_of_mem _ hm))
          (adcp_build_align ts ens st st1 (hwf ts ens (List.mem_cons_self _ _)) heq hal) h

/-- The witness ensemble is well formed: its offset table reads back and
each decoded data-type id occurs exactly once. -/
lemma adcpWellFormed_wit : adcpWellFormed adcpWitEns := by
  unfold adcpWellFormed
  rw [show adcpReadOffsets adcpWitEns 6 (u8 (pySlice adcpWitEns 0 6) 5) =
      .ok [18, 77, 142, 152, 158, 164] from by decide]
  dsimp only
  refine ⟨?_, ?_, ?_, ?_, ?_, ?_⟩ <;> decide

/-- C5: after a full ADCP `parse_data` scan in which every PD0-matched line
carries a well-formed ensemble (each of the six decoded data-type ids is
pointed at exactly once by the offset table), every column of the header,
fixed-leader, variable-leader, velocity, correlation, echo-intensity and
percent-good subtype tables has exactly as many rows as the top-level
`time` list. -/
theorem adcp_row_alignment (lines : List (Option (List Char × List Nat)))
    (st' : AdcpData)
    (hwf : ∀ ts ens, some (ts, ens) ∈ lines → adcpWellFormed ens)
    (h : adcp_parse_data lines {} = .ok st') :
    adcpAligned st' :=
  adcp_parse_data_align lines {} st' hwf adcpAligned_empty h

set_option maxRecDepth 10000 in
/-- Witness for the row-alignment theorem at a concrete two-line input: one
line the PD0 regex does not match, and one matched frame holding the
well-formed witness ensemble; the scan succeeds and its result is
row-aligned. -/
theorem adcp_row_alignment_witness :
    (∀ ts ens, some (ts, ens) ∈
        [none, some (adcpWitTs, adcpWitEns)] → adcpWellFormed ens) ∧
    ∃ st', adcp_parse_data [none, some (adcpWitTs, adcpWitEns)] {} = .ok st' ∧
      adcpAligned st' := by
  have hwf : ∀ ts ens, some (ts, ens) ∈
      [none, some (adcpWitTs, adcpWitEns)] → adcpWellFormed ens := by
    intro ts ens hm
    simp only [List.mem_cons, List.not_mem_nil, or_false, reduceCtorEq,
      false_or, Option.some.injEq, Prod.mk.injEq] at hm
    obtain ⟨-, rfl⟩ := hm
    exact adcpWellFormed_wit
  exact ⟨hwf, _, rfl, adcp_row_alignment _ _ hwf rfl⟩

end Cgsn
